import Mathlib

/-!
# biHaptics firmware: sensor binning and actuation state machine

A shallow embedding of `src/Firmware/PlatformIO/src/loadCellCoupledPWMVibrations.cpp`
(with `include/config.h` and `include/board_specific.h`).

Conventions of the embedding.

* `float` values are exact rationals (`ℚ`); rounding of the 32-bit float format is not
  modelled.
* `uint8_t`, `uint16_t`, `uint32_t` values are natural numbers; every conversion into one
  of these types is an explicit reduction modulo `2^8`, `2^16`, `2^32`.
* `long` is the 32-bit signed integer of both targets; arithmetic on it wraps
  (two's complement).
* The globals that `loop()` only reads after its serial-command dispatch are collected in
  `Settings`; the globals it writes are collected in `State`.
* Everything `loop()` obtains from the hardware in one pass (sensor readiness, sensor
  readings, `micros()` readings) is collected in `Inputs`.
* The call `map(filtered_sensor_value, ...)` resolves to a different library function on
  each build. On `BOARD_ESP32` it is the `long` function of the Arduino core (`map`, the
  `float` argument converted to `long` at the call); `binOf`, `maxValueBin` and with them
  `sensorUpdate` and `loop` embed this one. On `BOARD_TEENSY` it is the floating-point
  template of the Teensy core (`mapFloat`); `binOfTeensy` embeds the bin computation of
  that build.
* `delayMicroseconds` only lets time pass; time enters through the `micros()` readings of
  `Inputs`, one reading per use of a timer.
* `State` carries the duty last written to each actuator and, as bookkeeping of the model,
  the number of `StartPulse` calls per speaker.
* The persistent store (`EEPROM`) is seen through the fixed layout of `config.h`: 4-byte
  slots read and written as a `float` or as a 32-bit word. The calibration procedures take
  the `sensor.get_units(10)` readings as arguments; their blocking delays and the sensor
  driver calls do not touch the modelled settings.
* Serial telemetry and debug printing have no effect on the modelled state and are left out.
-/

namespace BiHaptics

/-! ## Machine integers -/

/-- Value of an integer after storing it in a 32-bit signed `long` (two's complement). -/
def wrapLong (z : Int) : Int := (z + 2147483648) % 4294967296 - 2147483648

/-- Value of an integer after storing it in a `uint32_t` / `unsigned long`. -/
def toU32 (z : Int) : Nat := (z % 4294967296).toNat

/-- Value of an integer after storing it in a `uint16_t`. -/
def toU16 (z : Int) : Nat := (z % 65536).toNat

/-- Value of an integer after storing it in a `uint8_t`. -/
def toU8 (z : Int) : Nat := (z % 256).toNat

/-- Integer part of a float: C++ float-to-integer conversion discards the fraction
(truncation toward zero). -/
def truncQ (v : ℚ) : Int := Int.tdiv v.num v.den

/-- Conversion of a `float` argument to a `long` parameter: truncation toward zero; values
outside the range of `long` saturate, as the conversion instructions of both targets do. -/
def floatToLong (v : ℚ) : Int :=
  let t := truncQ v
  if t < -2147483648 then -2147483648 else if t > 2147483647 then 2147483647 else t

/-! ## Arduino core helpers -/

/-- Arduino macro `constrain(amt, low, high)`:
`((amt)<(low)?(low):((amt)>(high)?(high):(amt)))`. -/
def constrain {α : Type} [LT α] [DecidableRel (fun (a b : α) => a < b)]
    (amt low high : α) : α :=
  if amt < low then low else if high < amt then high else amt

/-- Arduino core function `long map(long x, long in_min, long in_max, long out_min,
long out_max)`: `(x - in_min) * (out_max - out_min) / (in_max - in_min) + out_min` in `long`
arithmetic with C++ division (truncation toward zero); an empty input range returns `-1`
(arduino-esp32 `WMath.cpp`). This is the `map` of the `BOARD_ESP32` build; the
`BOARD_TEENSY` build resolves the same call to `mapFloat`. -/
def map (x in_min in_max out_min out_max : Int) : Int :=
  let run := wrapLong (in_max - in_min)
  if run = 0 then -1
  else
    let rise := wrapLong (out_max - out_min)
    let delta := wrapLong (x - in_min)
    wrapLong (wrapLong (Int.tdiv (wrapLong (delta * rise)) run) + out_min)

/-- Arduino constant `TWO_PI` (`6.283185307179586476925286766559`). -/
def TWO_PI : ℚ := 6283185307179586476925286766559 / 1000000000000000000000000000000

/-! ## Data model -/

/-- The source enum `Speaker`. -/
inductive Speaker where
  | LEFT
  | RIGHT
  deriving DecidableEq, Repr

/-- The source enum `VibrationMode`. -/
inductive VibrationMode where
  | INDIVIDUAL
  | MAX_VALUE
  | COMBINED
  deriving DecidableEq, Repr

/-- Build target selected by `BOARD_TEENSY` / `BOARD_ESP32`. -/
inductive Board where
  | TEENSY
  | ESP32
  deriving DecidableEq, Repr

/-- Build-time environment: the target board and the `sin` of the C library. -/
structure Platform where
  board : Board
  sin : ℚ → ℚ

/-- The source struct `SensorSettings`. -/
structure SensorSettings where
  filter_weight : ℚ := 9 / 10
  send_data_delay : Nat := 30
  calibration_delay : Nat := 5000
  calibration_weight : Nat := 50
  scale : ℚ := 1
  min_value : Nat := 0
  max_value : Nat := 10000

/-- The source struct `SignalGeneratorSettings`. -/
structure SignalGeneratorSettings where
  number_of_bins : Nat := 80
  duration_us : Nat := 12500
  amp : ℚ := 1

/-- Class `elapsedMicros` of `board_specific.h`: the `micros()` reading at which the
timer was last set to zero. -/
structure elapsedMicros where
  us : Nat := 0
  deriving DecidableEq, Repr

/-- Conversion `operator unsigned long ()` of `elapsedMicros`: `micros() - us`. -/
def elapsedMicros.read (e : elapsedMicros) (micros : Nat) : Nat :=
  toU32 ((micros : Int) - (e.us : Int))

/-- Assignment `operator = (val)` of `elapsedMicros`: `us = micros() - val`. -/
def elapsedMicros.assign (micros val : Nat) : elapsedMicros :=
  { us := toU32 ((micros : Int) - (val : Int)) }

/-- Globals that `loop()` only reads once the serial command has been dispatched. -/
structure Settings where
  sensor_settings_left : SensorSettings := {}
  sensor_settings_right : SensorSettings := {}
  signal_generator_settings : SignalGeneratorSettings := {}
  threshold_to_start_trigger : ℚ := 100
  augmentation_enabled : Bool := false
  Vibration_mode : VibrationMode := VibrationMode.COMBINED
  modulation_frequency : ℚ := 80

/-- Globals (and function-local statics) that `loop()` writes, the duty last written to
each actuator, and two counters of `StartPulse` calls (the counters are bookkeeping of the
model: the firmware has no such variable). -/
structure State where
  filtered_sensor_value_left : ℚ := 0
  filtered_sensor_value_right : ℚ := 0
  last_triggered_sensor_val_left : ℚ := 0
  last_triggered_sensor_val_right : ℚ := 0
  pulse_time_us_left : elapsedMicros := {}
  pulse_time_us_right : elapsedMicros := {}
  is_vibrating_left : Bool := false
  is_vibrating_right : Bool := false
  mapped_bin_id_left : Nat := 0
  mapped_bin_id_right : Nat := 0
  last_bin_id_left : Nat := 0
  last_bin_id_right : Nat := 0
  modulation_phase : ℚ := 0
  modulation_timer : elapsedMicros := {}
  prev_triggering_bin_id_combined : Nat := 0
  was_vibrating_combined : Bool := false
  duty_left : Nat := 0
  duty_right : Nat := 0
  pulses_started_left : Nat := 0
  pulses_started_right : Nat := 0

/-- What one pass of `loop()` obtains from the hardware: `ready_*` is
`sensor.is_ready()`, `units_*` is `sensor.get_units(1)`, `offset_*` is
`sensor.get_offset()`; `micros_start_*` is the `micros()` reading when `StartPulse` sets
the pulse timer of that speaker to zero, `micros_check_*` the reading when the pulse
duration handling reads that timer, `micros_mod_read` and `micros_mod_reset` the readings
when the modulation update reads and resets `modulation_timer`. -/
structure Inputs where
  ready_left : Bool := false
  units_left : ℚ := 0
  ready_right : Bool := false
  units_right : ℚ := 0
  offset_left : Int := 0
  offset_right : Int := 0
  micros_start_left : Nat := 0
  micros_start_right : Nat := 0
  micros_check_left : Nat := 0
  micros_check_right : Nat := 0
  micros_mod_read : Nat := 0
  micros_mod_reset : Nat := 0

/-! ## Pulse start and stop -/

/-- The source function `StartPulse`; `micros` is the clock reading at the timer reset. -/
def StartPulse (p : Platform) (cfg : Settings) (speaker : Speaker) (micros : Nat)
    (s : State) : State :=
  let base_duty_cycle : Nat := toU8 (truncQ (cfg.signal_generator_settings.amp * 255))
  let modulation : ℚ := p.sin s.modulation_phase
  let modulated_duty : Nat := toU8 (truncQ ((base_duty_cycle : ℚ) * (1 / 2 + 1 / 2 * modulation)))
  let duty : Nat :=
    match p.board with
    | Board.TEENSY => modulated_duty
    | Board.ESP32 => base_duty_cycle
  match speaker with
  | Speaker.LEFT =>
    { s with
      duty_left := duty
      pulse_time_us_left := elapsedMicros.assign micros 0
      is_vibrating_left := true
      pulses_started_left := s.pulses_started_left + 1 }
  | Speaker.RIGHT =>
    { s with
      duty_right := duty
      pulse_time_us_right := elapsedMicros.assign micros 0
      is_vibrating_right := true
      pulses_started_right := s.pulses_started_right + 1 }

/-- The source function `StopPulse`. -/
def StopPulse (speaker : Speaker) (s : State) : State :=
  match speaker with
  | Speaker.LEFT => { s with duty_left := 0, is_vibrating_left := false }
  | Speaker.RIGHT => { s with duty_right := 0, is_vibrating_right := false }

/-! ## Sensor reading and bin mapping -/

/-- Bin id stored for a channel from its filtered value (lines 518-523 and 532-537 of
`loop()`): `map` under the guard `min_value < max_value`, the result assigned to the
`uint16_t` bin id, then `constrain(bin, 0, number_of_bins)` assigned to it again. The
`map` here is the `long` function of the `BOARD_ESP32` build; `binOfTeensy` is the same
computation on the `BOARD_TEENSY` build. -/
def binOf (filtered : ℚ) (st : SensorSettings) (number_of_bins : Nat) : Nat :=
  let mapped : Nat :=
    if st.min_value < st.max_value then
      toU16 (map (floatToLong filtered) (wrapLong st.min_value) (wrapLong st.max_value) 0
        (number_of_bins : Int))
    else 0
  toU16 (constrain (mapped : Int) 0 (number_of_bins : Int))

/-- Teensy core function template `map` for a floating-point first argument
(`wiring.h`), the overload that the call `map(filtered_sensor_value, ...)` selects on the
`BOARD_TEENSY` build: `(x - in_min) * (out_max - out_min) / (in_max - in_min) + out_min`,
all operands converted to the type of `x`, no integer division. -/
def mapFloat (x in_min in_max out_min out_max : ℚ) : ℚ :=
  (x - in_min) * (out_max - out_min) / (in_max - in_min) + out_min

/-- Conversion of a `float` to `uint16_t` (assignment of the result of `mapFloat` to the
bin id): truncation toward zero. C++ defines the conversion only when the truncated value
fits the destination type; there is no result otherwise. -/
def floatToU16 (v : ℚ) : Option Nat :=
  let t := truncQ v
  if 0 ≤ t ∧ t ≤ 65535 then some t.toNat else none

/-- Bin id stored for a channel on the `BOARD_TEENSY` build (lines 518-523 and 532-537 of
`loop()` with `map` resolved to `mapFloat`): as `binOf`, with the floating-point `map` and
the conversion of its result to the `uint16_t` bin id. -/
def binOfTeensy (filtered : ℚ) (st : SensorSettings) (number_of_bins : Nat) : Option Nat :=
  let mapped : Option Nat :=
    if st.min_value < st.max_value then
      floatToU16 (mapFloat filtered (st.min_value : ℚ) (st.max_value : ℚ) 0
        (number_of_bins : ℚ))
    else some 0
  match mapped with
  | none => none
  | some m => some (toU16 (constrain (m : Int) 0 (number_of_bins : Int)))

/-- Filter update of a channel (lines 513-514 and 529-530 of `loop()`): the reading is
constrained to the calibrated range and blended into the filtered value. -/
def filterOf (filtered : ℚ) (st : SensorSettings) (sensor_value : ℚ) : ℚ :=
  let sensor_value := constrain sensor_value (st.min_value : ℚ) (st.max_value : ℚ)
  (1 - st.filter_weight) * filtered + st.filter_weight * sensor_value

/-- Sensor reading and processing part of `loop()` (lines 508-538). -/
def sensorUpdate (cfg : Settings) (inp : Inputs) (s : State) : State :=
  let s :=
    if inp.ready_left then
      let f := filterOf s.filtered_sensor_value_left cfg.sensor_settings_left inp.units_left
      { s with
        filtered_sensor_value_left := f
        mapped_bin_id_left :=
          binOf f cfg.sensor_settings_left cfg.signal_generator_settings.number_of_bins }
    else s
  if inp.ready_right then
    let f := filterOf s.filtered_sensor_value_right cfg.sensor_settings_right inp.units_right
    { s with
      filtered_sensor_value_right := f
      mapped_bin_id_right :=
        binOf f cfg.sensor_settings_right cfg.signal_generator_settings.number_of_bins }
  else s

/-! ## Actuation state machine -/

/-- Individual mode of `loop()` (lines 577-606). -/
def individualMode (p : Platform) (cfg : Settings) (inp : Inputs) (s : State) : State :=
  let s :=
    if s.mapped_bin_id_left ≠ s.last_bin_id_left ∧
        s.filtered_sensor_value_left > cfg.threshold_to_start_trigger then
      let s := if s.is_vibrating_left then StopPulse Speaker.LEFT s else s
      let s := StartPulse p cfg Speaker.LEFT inp.micros_start_left s
      { s with
        last_bin_id_left := s.mapped_bin_id_left
        last_triggered_sensor_val_left := s.filtered_sensor_value_left }
    else s
  let s :=
    if s.mapped_bin_id_right ≠ s.last_bin_id_right ∧
        s.filtered_sensor_value_right > cfg.threshold_to_start_trigger then
      let s := if s.is_vibrating_right then StopPulse Speaker.RIGHT s else s
      let s := StartPulse p cfg Speaker.RIGHT inp.micros_start_right s
      { s with
        last_bin_id_right := s.mapped_bin_id_right
        last_triggered_sensor_val_right := s.filtered_sensor_value_right }
    else s
  { s with was_vibrating_combined := false }

/-- Bin id of the larger filtered value in Max Value mode (lines 609-621 of `loop()`):
`map` (the `long` function of the ESP32 build) over the calibrated range of the channel
with the larger value (no guard on the range here), assigned to the `uint16_t`
`max_bin_id`, then constrained to `[0, number_of_bins]`. The macro `max(a,b)` is `((a)>(b)?(a):(b))`, which is `max` on a
linear order. -/
def maxValueBin (cfg : Settings) (s : State) : Nat :=
  let max_val : ℚ := max s.filtered_sensor_value_left s.filtered_sensor_value_right
  let max_bin_id : Nat :=
    if s.filtered_sensor_value_right > s.filtered_sensor_value_left then
      toU16 (map (floatToLong max_val) (wrapLong cfg.sensor_settings_right.min_value)
        (wrapLong cfg.sensor_settings_right.max_value) 0
        (cfg.signal_generator_settings.number_of_bins : Int))
    else
      toU16 (map (floatToLong max_val) (wrapLong cfg.sensor_settings_left.min_value)
        (wrapLong cfg.sensor_settings_left.max_value) 0
        (cfg.signal_generator_settings.number_of_bins : Int))
  toU16 (constrain (max_bin_id : Int) 0 (cfg.signal_generator_settings.number_of_bins : Int))

/-- Target speaker of Max Value mode (lines 611-620 of `loop()`). -/
def maxValueTarget (s : State) : Speaker :=
  if s.filtered_sensor_value_right > s.filtered_sensor_value_left then Speaker.RIGHT
  else Speaker.LEFT

/-- Max Value mode of `loop()` (lines 608-646). -/
def maxValueMode (p : Platform) (cfg : Settings) (inp : Inputs) (s : State) : State :=
  let max_val : ℚ := max s.filtered_sensor_value_left s.filtered_sensor_value_right
  let last_max_bin_id : Nat := max s.last_bin_id_left s.last_bin_id_right
  let target_speaker : Speaker := maxValueTarget s
  let max_bin_id : Nat := maxValueBin cfg s
  let s :=
    if max_bin_id ≠ last_max_bin_id ∧ max_val > cfg.threshold_to_start_trigger then
      let s :=
        if target_speaker = Speaker.LEFT ∧ s.is_vibrating_right then StopPulse Speaker.RIGHT s
        else s
      let s :=
        if target_speaker = Speaker.RIGHT ∧ s.is_vibrating_left then StopPulse Speaker.LEFT s
        else s
      let s :=
        if s.is_vibrating_left ∧ target_speaker = Speaker.LEFT then StopPulse Speaker.LEFT s
        else s
      let s :=
        if s.is_vibrating_right ∧ target_speaker = Speaker.RIGHT then StopPulse Speaker.RIGHT s
        else s
      let s :=
        match target_speaker with
        | Speaker.LEFT => StartPulse p cfg Speaker.LEFT inp.micros_start_left s
        | Speaker.RIGHT => StartPulse p cfg Speaker.RIGHT inp.micros_start_right s
      let s :=
        { s with
          last_bin_id_left := s.mapped_bin_id_left
          last_bin_id_right := s.mapped_bin_id_right }
      if target_speaker = Speaker.LEFT then { s with last_triggered_sensor_val_left := max_val }
      else { s with last_triggered_sensor_val_right := max_val }
    else if max_val ≤ cfg.threshold_to_start_trigger then
      let s := if s.is_vibrating_left then StopPulse Speaker.LEFT s else s
      if s.is_vibrating_right then StopPulse Speaker.RIGHT s else s
    else s
  { s with was_vibrating_combined := false }

/-- Dynamic range of a channel in grams (lines 563-569 of `loop()`): the difference
`min_value - get_offset()` is taken in `uint32_t` arithmetic before the division. -/
def rangeOf (st : SensorSettings) (offset : Int) : ℚ :=
  let min_grams : ℚ := (toU32 ((st.min_value : Int) - offset) : ℚ) / st.scale
  let max_grams : ℚ := (toU32 ((st.max_value : Int) - offset) : ℚ) / st.scale
  if max_grams > min_grams then max_grams - min_grams else 0

/-- The flag `should_vibrate_combined` of Combined mode (lines 649-664 of `loop()`). -/
def combinedShouldVibrate (cfg : Settings) (s : State) : Bool :=
  let left_active : Bool := s.filtered_sensor_value_left > cfg.threshold_to_start_trigger
  let right_active : Bool := s.filtered_sensor_value_right > cfg.threshold_to_start_trigger
  let should_vibrate_combined : Bool := left_active || right_active
  let should_vibrate_combined : Bool :=
    if left_active ∧ s.mapped_bin_id_left ≠ s.last_bin_id_left then true
    else should_vibrate_combined
  if right_active ∧ s.mapped_bin_id_right ≠ s.last_bin_id_right then true
  else should_vibrate_combined

/-- The value `current_triggering_bin_id` of Combined mode (lines 649-664 of `loop()`). -/
def combinedTriggeringBin (cfg : Settings) (inp : Inputs) (s : State) : Nat :=
  let range_l : ℚ := rangeOf cfg.sensor_settings_left inp.offset_left
  let range_r : ℚ := rangeOf cfg.sensor_settings_right inp.offset_right
  let left_active : Bool := s.filtered_sensor_value_left > cfg.threshold_to_start_trigger
  let right_active : Bool := s.filtered_sensor_value_right > cfg.threshold_to_start_trigger
  let current_triggering_bin_id : Nat := 0
  let current_triggering_bin_id : Nat :=
    if left_active ∧ s.mapped_bin_id_left ≠ s.last_bin_id_left then s.mapped_bin_id_left
    else current_triggering_bin_id
  if right_active ∧ s.mapped_bin_id_right ≠ s.last_bin_id_right then
    if range_r > range_l then s.mapped_bin_id_right else current_triggering_bin_id
  else current_triggering_bin_id

/-- Combined mode of `loop()` (lines 648-691). -/
def combinedMode (p : Platform) (cfg : Settings) (inp : Inputs) (s : State) : State :=
  let should_vibrate_combined : Bool := combinedShouldVibrate cfg s
  let current_triggering_bin_id : Nat := combinedTriggeringBin cfg inp s
  let trigger_change : Bool :=
    (should_vibrate_combined &&
        decide (current_triggering_bin_id ≠ s.prev_triggering_bin_id_combined)) ||
      (should_vibrate_combined != s.was_vibrating_combined)
  let s :=
    if trigger_change then
      if should_vibrate_combined then
        let s := if s.is_vibrating_left then StopPulse Speaker.LEFT s else s
        let s := if s.is_vibrating_right then StopPulse Speaker.RIGHT s else s
        let s := StartPulse p cfg Speaker.LEFT inp.micros_start_left s
        StartPulse p cfg Speaker.RIGHT inp.micros_start_right s
      else
        let s := if s.is_vibrating_left then StopPulse Speaker.LEFT s else s
        if s.is_vibrating_right then StopPulse Speaker.RIGHT s else s
    else s
  { s with
    was_vibrating_combined := should_vibrate_combined
    prev_triggering_bin_id_combined := current_triggering_bin_id
    last_bin_id_left := s.mapped_bin_id_left
    last_bin_id_right := s.mapped_bin_id_right }

/-- Mode dispatch of `loop()` (lines 577, 608, 648). -/
def modeLogic (p : Platform) (cfg : Settings) (inp : Inputs) (s : State) : State :=
  match cfg.Vibration_mode with
  | VibrationMode.INDIVIDUAL => individualMode p cfg inp s
  | VibrationMode.MAX_VALUE => maxValueMode p cfg inp s
  | VibrationMode.COMBINED => combinedMode p cfg inp s

/-- Pulse duration handling of `loop()` (lines 693-699). -/
def pulseDurationHandling (cfg : Settings) (inp : Inputs) (s : State) : State :=
  let s :=
    if s.is_vibrating_left ∧
        s.pulse_time_us_left.read inp.micros_check_left ≥
          cfg.signal_generator_settings.duration_us then
      StopPulse Speaker.LEFT s
    else s
  if s.is_vibrating_right ∧
      s.pulse_time_us_right.read inp.micros_check_right ≥
        cfg.signal_generator_settings.duration_us then
    StopPulse Speaker.RIGHT s
  else s

/-- Sine wave modulation update of `loop()` (lines 701-724). -/
def sineModulationUpdate (p : Platform) (cfg : Settings) (inp : Inputs) (s : State) : State :=
  if s.is_vibrating_left ∨ s.is_vibrating_right then
    let delta_time : ℚ := (s.modulation_timer.read inp.micros_mod_read : ℚ) / 1000000
    let phase : ℚ := s.modulation_phase + TWO_PI * cfg.modulation_frequency * delta_time
    let phase : ℚ := if phase ≥ TWO_PI then phase - TWO_PI else phase
    let s :=
      { s with
        modulation_phase := phase
        modulation_timer := elapsedMicros.assign inp.micros_mod_reset 0 }
    match p.board with
    | Board.TEENSY =>
      let modulated_duty : Nat :=
        toU8 (truncQ (cfg.signal_generator_settings.amp * 255 *
          (1 / 2 + 1 / 2 * p.sin s.modulation_phase)))
      let s := if s.is_vibrating_left then { s with duty_left := modulated_duty } else s
      if s.is_vibrating_right then { s with duty_right := modulated_duty } else s
    | Board.ESP32 => s
  else s

/-- Augmentation-disabled branch of `loop()` (lines 555-560). -/
def augmentationDisabled (s : State) : State :=
  let s := if s.is_vibrating_left then StopPulse Speaker.LEFT s else s
  let s := if s.is_vibrating_right then StopPulse Speaker.RIGHT s else s
  { s with was_vibrating_combined := false }

/-- One pass of `loop()` after the serial command dispatch (lines 506-724). -/
def loop (p : Platform) (cfg : Settings) (inp : Inputs) (s : State) : State :=
  let s := sensorUpdate cfg inp s
  if cfg.augmentation_enabled = false then augmentationDisabled s
  else
    let s := modeLogic p cfg inp s
    let s := pulseDurationHandling cfg inp s
    sineModulationUpdate p cfg inp s

/-- A run of `loop()` passes: each pass has its own settings (a serial command may have
changed them before the pass) and its own inputs. -/
def runLoop (p : Platform) : State → List (Settings × Inputs) → State
  | s, [] => s
  | s, (cfg, inp) :: rest => runLoop p (loop p cfg inp s) rest



/-! ## Calibration parameters and the persistent store -/

/-- Constant `defaults::kSensorLeftScale` of `config.h`. -/
def defaults.kSensorLeftScale : ℚ := 1

/-- Constant `defaults::kSensorLeftMinValue` of `config.h`. -/
def defaults.kSensorLeftMinValue : Nat := 0

/-- Constant `defaults::kSensorLeftMaxValue` of `config.h`. -/
def defaults.kSensorLeftMaxValue : Nat := 10000

/-- Constant `defaults::kSensorRightScale` of `config.h`. -/
def defaults.kSensorRightScale : ℚ := 1

/-- Constant `defaults::kSensorRightMinValue` of `config.h`. -/
def defaults.kSensorRightMinValue : Nat := 0

/-- Constant `defaults::kSensorRightMaxValue` of `config.h`. -/
def defaults.kSensorRightMaxValue : Nat := 10000

/-- Constant `defaults::kEEPROMSensorLeftScaleAddress` of `config.h`. -/
def defaults.kEEPROMSensorLeftScaleAddress : Int := 0

/-- Constant `defaults::kEEPROMSensorLeftMinValueAddress` of `config.h`. -/
def defaults.kEEPROMSensorLeftMinValueAddress : Int := 4

/-- Constant `defaults::kEEPROMSensorLeftMaxValueAddress` of `config.h`. -/
def defaults.kEEPROMSensorLeftMaxValueAddress : Int := 8

/-- Constant `defaults::kEEPROMSensorRightScaleAddress` of `config.h`. -/
def defaults.kEEPROMSensorRightScaleAddress : Int := 12

/-- Constant `defaults::kEEPROMSensorRightMinValueAddress` of `config.h`. -/
def defaults.kEEPROMSensorRightMinValueAddress : Int := 16

/-- Constant `defaults::kEEPROMSensorRightMaxValueAddress` of `config.h`. -/
def defaults.kEEPROMSensorRightMaxValueAddress : Int := 20

/-- A 4-byte `float` as it may come out of the persistent store: not-a-number, or a
number (an exact rational; infinities are not modelled). -/
inductive StoredFloat where
  | nan
  | num (q : ℚ)

/-- The Arduino `EEPROM` object, seen through the fixed layout of `config.h`: 4-byte slots
at distinct addresses, a slot being read and written either as a `float` or as a 32-bit
unsigned word. -/
structure EEPROMClass where
  floats : Int → StoredFloat
  words : Int → Nat

/-- Read of a `float` slot, `EEPROM.get(address, float&)`. -/
def EEPROMClass.get_float (e : EEPROMClass) (address : Int) : StoredFloat :=
  e.floats address

/-- Read of a `uint32_t` slot, `EEPROM.get(address, uint32_t&)`. -/
def EEPROMClass.get_word (e : EEPROMClass) (address : Int) : Nat :=
  toU32 (e.words address)

/-- Write of a 4-byte integer slot, `EEPROM.put(address, value)` with a `uint32_t` or
`int` value. -/
def EEPROMClass.put_word (e : EEPROMClass) (address : Int) (value : Int) : EEPROMClass :=
  { e with words := fun a => if a = address then toU32 value else e.words a }

/-- Conversion of a `float` reading to `uint32_t` (assignment of `sensor.get_units(10)`
to `min_value` / `max_value`): truncation toward zero; values outside the range of
`uint32_t` saturate, as the conversion instructions of both targets do. -/
def floatToU32 (v : ℚ) : Nat :=
  let t := truncQ v
  if t < 0 then 0 else if t > 4294967295 then 4294967295 else t.toNat

/-- Loading of one channel's parameters in `SetupSensors` (lines 160-168 and 181-189):
`isnan(scale) || scale == 0.0f` selects the default scale, and
`min_value >= max_value || max_value == 0` selects the default range. -/
def loadSensorSettings (e : EEPROMClass) (scale_addr min_addr max_addr : Int)
    (default_scale : ℚ) (default_min default_max : Nat) (st : SensorSettings) :
    SensorSettings :=
  let scale : ℚ :=
    match e.get_float scale_addr with
    | StoredFloat.nan => default_scale
    | StoredFloat.num q => if q = 0 then default_scale else q
  let min_value := e.get_word min_addr
  let max_value := e.get_word max_addr
  if min_value ≥ max_value ∨ max_value = 0 then
    { st with scale := scale, min_value := default_min, max_value := default_max }
  else
    { st with scale := scale, min_value := min_value, max_value := max_value }

/-- The source function `SetupSensors` (lines 145-200), on the settings of both
channels. The sensor driver calls (`begin`, `set_scale`, `tare`) do not touch the settings. -/
def SetupSensors (e : EEPROMClass) (cfg : Settings) : Settings :=
  { cfg with
    sensor_settings_left :=
      loadSensorSettings e defaults.kEEPROMSensorLeftScaleAddress
        defaults.kEEPROMSensorLeftMinValueAddress defaults.kEEPROMSensorLeftMaxValueAddress
        defaults.kSensorLeftScale defaults.kSensorLeftMinValue defaults.kSensorLeftMaxValue
        cfg.sensor_settings_left
    sensor_settings_right :=
      loadSensorSettings e defaults.kEEPROMSensorRightScaleAddress
        defaults.kEEPROMSensorRightMinValueAddress defaults.kEEPROMSensorRightMaxValueAddress
        defaults.kSensorRightScale defaults.kSensorRightMinValue defaults.kSensorRightMaxValue
        cfg.sensor_settings_right }

/-- The source function `CalibrateSensorRange` (lines 229-269); `units_min` and
`units_max` are the two `sensor.get_units(10)` readings (after the tare, and under
load). Both channels fall back to `kSensorLeftMinValue` / `kSensorLeftMaxValue`. The store
receives, in this order, `min_value`, the constant 0, `max_value`, the constant 5000. -/
def CalibrateSensorRange (units_min units_max : ℚ) (settings : SensorSettings)
    (eeprom_min_addr eeprom_max_addr : Int) (e : EEPROMClass) :
    SensorSettings × EEPROMClass :=
  let settings := { settings with min_value := floatToU32 units_min }
  let settings := { settings with max_value := floatToU32 units_max }
  let settings :=
    if settings.min_value ≥ settings.max_value then
      { settings with
        min_value := defaults.kSensorLeftMinValue
        max_value := defaults.kSensorLeftMaxValue }
    else settings
  let e := e.put_word eeprom_min_addr settings.min_value
  let e := e.put_word eeprom_min_addr 0
  let e := e.put_word eeprom_max_addr settings.max_value
  let e := e.put_word eeprom_max_addr 5000
  (settings, e)

/-- The source function `CalibrateMin` (lines 271-294); `units_min` is the
`sensor.get_units(10)` reading after the tare. The address of the maximum is a parameter
of the source function that its body does not use. -/
def CalibrateMin (units_min : ℚ) (settings : SensorSettings)
    (eeprom_min_addr _eeprom_max_addr : Int) (e : EEPROMClass) :
    SensorSettings × EEPROMClass :=
  let settings := { settings with min_value := floatToU32 units_min }
  let settings :=
    if settings.min_value ≥ settings.max_value then { settings with min_value := 0 }
    else settings
  let e := e.put_word eeprom_min_addr settings.min_value
  (settings, e)

/-- The ESP32 build; its duty values do not use `sin`, which is taken constant here. -/
def esp32 : Platform := { board := Board.ESP32, sin := fun _ => 0 }

/-- Default settings with augmentation enabled (the default mode is Combined). -/
def combinedOn : Settings := { augmentation_enabled := true }

/-- Default settings with augmentation enabled in Individual mode. -/
def individualOn : Settings :=
  { augmentation_enabled := true, Vibration_mode := VibrationMode.INDIVIDUAL }

/-- Default settings with augmentation enabled in Max Value mode. -/
def maxValueOn : Settings :=
  { augmentation_enabled := true, Vibration_mode := VibrationMode.MAX_VALUE }

/-- Individual mode with augmentation enabled and a pulse duration of 1000 µs. -/
def individualOn1000 : Settings :=
  { augmentation_enabled := true, Vibration_mode := VibrationMode.INDIVIDUAL,
    signal_generator_settings := { duration_us := 1000 } }

/-- A pass in which no sensor is ready and the clock reads 0 throughout. -/
def quietPass : Inputs := {}

/-- Both channels idle; the left filtered value 200 is above the threshold 100 and both
current bins equal the last-triggered bins (left 5, right 0). -/
def heldLeft : State :=
  { filtered_sensor_value_left := 200, mapped_bin_id_left := 5, last_bin_id_left := 5 }

/-- Left bin unchanged at 5 while the filtered value has risen from 650 (the value at the
last trigger) to 680. -/
def risingSameBin : State :=
  { filtered_sensor_value_left := 680, last_triggered_sensor_val_left := 650,
    mapped_bin_id_left := 5, last_bin_id_left := 5 }

/-- Left channel vibrating since clock reading 2, with a new bin (5 after 4) and a
filtered value above the threshold. -/
def expiringLeft : State :=
  { filtered_sensor_value_left := 700, mapped_bin_id_left := 5, last_bin_id_left := 4,
    is_vibrating_left := true, duty_left := 255, pulse_time_us_left := { us := 2 } }

/-- As `expiringLeft` with the bin unchanged. -/
def expiringLeftSameBin : State :=
  { filtered_sensor_value_left := 700, mapped_bin_id_left := 5, last_bin_id_left := 5,
    is_vibrating_left := true, duty_left := 255, pulse_time_us_left := { us := 2 } }

/-- A pass whose left timeout check happens at clock reading 1002, a `StartPulse` of the
left speaker (if any) at 1001. -/
def passAt1002 : Inputs :=
  { micros_start_left := 1001, micros_start_right := 1001, micros_check_left := 1002,
    micros_check_right := 1003, micros_mod_read := 1004, micros_mod_reset := 1005 }

/-- First pass of the two-pass Combined run: the two `StartPulse` calls read the clock at
0 and 5. -/
def skewPass1 : Inputs :=
  { micros_start_left := 0, micros_start_right := 5, micros_check_left := 10,
    micros_check_right := 11, micros_mod_read := 12, micros_mod_reset := 13 }

/-- Second pass of the two-pass Combined run: the timeout checks read the clock at 12502
and 12503. -/
def skewPass2 : Inputs :=
  { micros_start_left := 12500, micros_start_right := 12501, micros_check_left := 12502,
    micros_check_right := 12503, micros_mod_read := 12504, micros_mod_reset := 12505 }

/-- Left channel vibrating with a changed bin, both filtered values (40 and 60) at or
below the threshold 100. -/
def releasedBoth : State :=
  { filtered_sensor_value_left := 40, filtered_sensor_value_right := 60,
    is_vibrating_left := true, is_vibrating_right := false, duty_left := 200,
    mapped_bin_id_left := 3, last_bin_id_left := 1 }

/-- Max Value scenario of the specification: left 300, right 900, both above the
threshold 100. The left channel is vibrating since clock reading 0; the last trigger was
on the left channel at bin 7, and the bin of the right value 900 over the default range is
7 as well. -/
def rightOvertakes : State :=
  { filtered_sensor_value_left := 300, filtered_sensor_value_right := 900,
    mapped_bin_id_left := 2, mapped_bin_id_right := 7, last_bin_id_left := 7,
    last_bin_id_right := 0, is_vibrating_left := true, duty_left := 255 }

/-- As `rightOvertakes`, with the last trigger at bin 6. -/
def rightOvertakesNewBin : State :=
  { filtered_sensor_value_left := 300, filtered_sensor_value_right := 900,
    mapped_bin_id_left := 2, mapped_bin_id_right := 7, last_bin_id_left := 6,
    last_bin_id_right := 0, is_vibrating_left := true, duty_left := 255 }

/-- Default settings with augmentation disabled, in Individual mode. -/
def individualOff : Settings :=
  { augmentation_enabled := false, Vibration_mode := VibrationMode.INDIVIDUAL }

/-- Both channels vibrating with pulses in flight, a changed left bin and a left filtered
value above the threshold, the Combined-mode memory recording a vibrating pair. -/
def bothInFlight : State :=
  { filtered_sensor_value_left := 700, mapped_bin_id_left := 5, last_bin_id_left := 4,
    is_vibrating_left := true, is_vibrating_right := true, duty_left := 255,
    duty_right := 130, was_vibrating_combined := true }

/-- An erased store: every `float` slot reads as not-a-number and every word slot as
`0xFFFFFFFF`. -/
def erasedStore : EEPROMClass :=
  { floats := fun _ => StoredFloat.nan, words := fun _ => 4294967295 }

/-- A store holding a valid left calibration (scale 2, range `[100, 8000]`), a zero right
scale and a degenerate right range `[500, 500]`. -/
def mixedStore : EEPROMClass :=
  { floats := fun a => if a = 0 then StoredFloat.num 2 else StoredFloat.num 0
    words := fun a => if a = 4 then 100 else if a = 8 then 8000 else 500 }

/-- A pass at clock reading 1000000 (one second after the timers of the initial state
were started at 0), in which no sensor is ready. -/
def passAfterOneSecond : Inputs :=
  { micros_start_left := 1000000, micros_start_right := 1000000,
    micros_check_left := 1000000, micros_check_right := 1000000,
    micros_mod_read := 1000000, micros_mod_reset := 1000000 }

/-- Max Value mode with augmentation enabled, the left range `[0, 10000]` and the right
range `[0, 1000]` (both valid), 80 bins. -/
def maxValueOnTwoRanges : Settings :=
  { augmentation_enabled := true, Vibration_mode := VibrationMode.MAX_VALUE,
    sensor_settings_right := { max_value := 1000 } }

/-- Both channels idle; left filtered value 900 (bin 7 over `[0, 10000]`), right filtered
value 500 (bin 40 over `[0, 1000]`). -/
def leftLargerRightFiner : State :=
  { filtered_sensor_value_left := 900, filtered_sensor_value_right := 500,
    mapped_bin_id_left := 7, mapped_bin_id_right := 40 }

/-! ## Lemmas on the machine-integer helpers -/

theorem constrain_int_bounds (a lo hi : Int) (h : lo ≤ hi) :
    lo ≤ constrain a lo hi ∧ constrain a lo hi ≤ hi := by
  unfold constrain
  split_ifs <;> omega

theorem constrain_int_of_mem (a lo hi : Int) (h1 : lo ≤ a) (h2 : a ≤ hi) :
    constrain a lo hi = a := by
  unfold constrain
  split_ifs <;> omega

theorem toU16_le_of_nonneg (z : Int) (hz : 0 ≤ z) : (toU16 z : Int) ≤ z := by
  unfold toU16
  omega

theorem toU16_of_lt (z : Int) (hz : 0 ≤ z) (h : z < 65536) : (toU16 z : Int) = z := by
  unfold toU16
  omega

theorem wrapLong_of_range (z : Int) (h1 : -2147483648 ≤ z) (h2 : z < 2147483648) :
    wrapLong z = z := by
  unfold wrapLong
  omega

theorem truncQ_of_nonneg (v : ℚ) (hv : 0 ≤ v) : truncQ v = ⌊v⌋ := by
  unfold truncQ
  rw [Rat.floor_def]
  exact Int.tdiv_eq_ediv (Rat.num_nonneg.mpr hv) (by exact_mod_cast Nat.zero_le _)

theorem binOf_le (v : ℚ) (st : SensorSettings) (N : Nat) : binOf v st N ≤ N := by
  unfold binOf
  have hb := constrain_int_bounds
    ((if st.min_value < st.max_value then
      toU16 (map (floatToLong v) (wrapLong st.min_value) (wrapLong st.max_value) 0 (N : Int))
      else 0 : Nat) : Int) 0 (N : Int) (by omega)
  have := toU16_le_of_nonneg _ hb.1
  simp only at this ⊢
  omega

theorem binOf_degenerate (v : ℚ) (st : SensorSettings) (N : Nat)
    (h : st.max_value ≤ st.min_value) : binOf v st N = 0 := by
  unfold binOf
  simp only [if_neg (not_lt.mpr h), Nat.cast_zero]
  rw [constrain_int_of_mem 0 0 (N : Int) (le_refl 0) (by omega)]
  rfl

/-- Value of `binOf` inside the calibrated range when no `long` product overflows. -/
theorem binOf_in_range (v : ℚ) (st : SensorSettings) (N : Nat)
    (hlt : st.min_value < st.max_value) (hmax : st.max_value < 2147483648)
    (hN : N < 65536)
    (hov : (st.max_value - st.min_value) * N < 2147483648)
    (hv1 : (st.min_value : ℚ) ≤ v) (hv2 : v ≤ (st.max_value : ℚ)) :
    (binOf v st N : Int) =
      (⌊v⌋ - (st.min_value : Int)) * (N : Int) / ((st.max_value : Int) - (st.min_value : Int)) := by
  have hv0 : (0 : ℚ) ≤ v := le_trans (by exact_mod_cast Nat.zero_le _) hv1
  have hf1 : (st.min_value : Int) ≤ ⌊v⌋ := Int.le_floor.mpr (by exact_mod_cast hv1)
  have hf2 : ⌊v⌋ ≤ (st.max_value : Int) := by
    have := Int.floor_le v
    have h3 : ((⌊v⌋ : Int) : ℚ) ≤ ((st.max_value : Int) : ℚ) := le_trans this (by exact_mod_cast hv2)
    exact_mod_cast h3
  have hfl : floatToLong v = ⌊v⌋ := by
    unfold floatToLong
    rw [truncQ_of_nonneg v hv0]
    simp only
    split_ifs <;> omega
  -- the product and the quotient
  set a : Int := ⌊v⌋ - (st.min_value : Int) with ha
  set r : Int := (st.max_value : Int) - (st.min_value : Int) with hr
  have ha0 : 0 ≤ a := by omega
  have har : a ≤ r := by omega
  have hr0 : 0 < r := by omega
  have hrN : r * (N : Int) < 2147483648 := by
    have : (((st.max_value - st.min_value) * N : Nat) : Int) < 2147483648 := by exact_mod_cast hov
    rw [Nat.cast_mul, Nat.cast_sub (le_of_lt hlt)] at this
    exact this
  have haN : a * (N : Int) ≤ r * (N : Int) := Int.mul_le_mul_of_nonneg_right har (by omega)
  have haN0 : 0 ≤ a * (N : Int) := Int.mul_nonneg ha0 (by omega)
  have hq0 : 0 ≤ a * (N : Int) / r := Int.ediv_nonneg haN0 (le_of_lt hr0)
  have hqN : a * (N : Int) / r ≤ (N : Int) := by
    have : a * (N : Int) / r ≤ r * (N : Int) / r := Int.ediv_le_ediv hr0 haN
    rwa [Int.mul_ediv_cancel_left _ (ne_of_gt hr0)] at this
  have hmap : map (floatToLong v) (wrapLong st.min_value) (wrapLong st.max_value) 0 (N : Int)
      = a * (N : Int) / r := by
    unfold map
    rw [hfl, wrapLong_of_range (st.min_value : Int) (by omega) (by omega),
      wrapLong_of_range (st.max_value : Int) (by omega) (by omega)]
    simp only [sub_zero, add_zero]
    rw [wrapLong_of_range ((st.max_value : Int) - st.min_value) (by omega) (by omega),
      wrapLong_of_range (N : Int) (by omega) (by omega),
      wrapLong_of_range (⌊v⌋ - (st.min_value : Int)) (by omega) (by omega),
      if_neg (by omega),
      wrapLong_of_range (a * (N : Int)) (by omega) (by omega),
      Int.tdiv_eq_ediv haN0 (le_of_lt hr0),
      wrapLong_of_range (a * (N : Int) / r) (by omega) (by omega),
      wrapLong_of_range (a * (N : Int) / r) (by omega) (by omega)]
  unfold binOf
  simp only [if_pos hlt, hmap]
  rw [toU16_of_lt _ hq0 (by omega), constrain_int_of_mem _ _ _ hq0 hqN,
    toU16_of_lt _ hq0 (by omega)]

/-! ## The sensor update, field by field -/

theorem sensorUpdate_filtered_left (cfg : Settings) (inp : Inputs) (s : State) :
    (sensorUpdate cfg inp s).filtered_sensor_value_left =
      if inp.ready_left = true then
        filterOf s.filtered_sensor_value_left cfg.sensor_settings_left inp.units_left
      else s.filtered_sensor_value_left := by
  by_cases h1 : inp.ready_left = true <;> by_cases h2 : inp.ready_right = true <;>
    simp [sensorUpdate, h1, h2]

theorem sensorUpdate_filtered_right (cfg : Settings) (inp : Inputs) (s : State) :
    (sensorUpdate cfg inp s).filtered_sensor_value_right =
      if inp.ready_right = true then
        filterOf s.filtered_sensor_value_right cfg.sensor_settings_right inp.units_right
      else s.filtered_sensor_value_right := by
  by_cases h1 : inp.ready_left = true <;> by_cases h2 : inp.ready_right = true <;>
    simp [sensorUpdate, h1, h2]

theorem sensorUpdate_mapped_left (cfg : Settings) (inp : Inputs) (s : State) :
    (sensorUpdate cfg inp s).mapped_bin_id_left =
      if inp.ready_left = true then
        binOf (filterOf s.filtered_sensor_value_left cfg.sensor_settings_left inp.units_left)
          cfg.sensor_settings_left cfg.signal_generator_settings.number_of_bins
      else s.mapped_bin_id_left := by
  by_cases h1 : inp.ready_left = true <;> by_cases h2 : inp.ready_right = true <;>
    simp [sensorUpdate, h1, h2]

theorem sensorUpdate_mapped_right (cfg : Settings) (inp : Inputs) (s : State) :
    (sensorUpdate cfg inp s).mapped_bin_id_right =
      if inp.ready_right = true then
        binOf (filterOf s.filtered_sensor_value_right cfg.sensor_settings_right inp.units_right)
          cfg.sensor_settings_right cfg.signal_generator_settings.number_of_bins
      else s.mapped_bin_id_right := by
  by_cases h1 : inp.ready_left = true <;> by_cases h2 : inp.ready_right = true <;>
    simp [sensorUpdate, h1, h2]

/-- The sensor update writes only the filtered values and the mapped bin ids. -/
theorem sensorUpdate_frame (cfg : Settings) (inp : Inputs) (s : State) :
    (sensorUpdate cfg inp s).is_vibrating_left = s.is_vibrating_left ∧
    (sensorUpdate cfg inp s).is_vibrating_right = s.is_vibrating_right ∧
    (sensorUpdate cfg inp s).duty_left = s.duty_left ∧
    (sensorUpdate cfg inp s).duty_right = s.duty_right ∧
    (sensorUpdate cfg inp s).pulse_time_us_left = s.pulse_time_us_left ∧
    (sensorUpdate cfg inp s).pulse_time_us_right = s.pulse_time_us_right ∧
    (sensorUpdate cfg inp s).last_bin_id_left = s.last_bin_id_left ∧
    (sensorUpdate cfg inp s).last_bin_id_right = s.last_bin_id_right ∧
    (sensorUpdate cfg inp s).last_triggered_sensor_val_left = s.last_triggered_sensor_val_left ∧
    (sensorUpdate cfg inp s).last_triggered_sensor_val_right =
      s.last_triggered_sensor_val_right ∧
    (sensorUpdate cfg inp s).pulses_started_left = s.pulses_started_left ∧
    (sensorUpdate cfg inp s).pulses_started_right = s.pulses_started_right ∧
    (sensorUpdate cfg inp s).prev_triggering_bin_id_combined =
      s.prev_triggering_bin_id_combined ∧
    (sensorUpdate cfg inp s).was_vibrating_combined = s.was_vibrating_combined := by
  by_cases h1 : inp.ready_left = true <;> by_cases h2 : inp.ready_right = true <;>
    simp [sensorUpdate, h1, h2]

/-! ## Bin mapping (claims C1 to C4) -/

/-- C1: for every filtered value `v` (inside or outside the calibrated range), every range
with `min_value < max_value` and every bin count `N`, the bin id computed from `v` satisfies
`0 ≤ bin ≤ N`; in particular the bin id that the sensor update of `loop()` stores for a
channel whose sensor is ready is the bin of the new filtered value and lies in `[0, N]`. -/
theorem sensor_update_bin_within_bin_count (cfg : Settings) (inp : Inputs) (s : State) (v : ℚ)
    (st : SensorSettings) (N : Nat) :
    (0 ≤ binOf v st N ∧ binOf v st N ≤ N) ∧
    (inp.ready_left = true →
      (sensorUpdate cfg inp s).mapped_bin_id_left =
          binOf (sensorUpdate cfg inp s).filtered_sensor_value_left cfg.sensor_settings_left
            cfg.signal_generator_settings.number_of_bins ∧
        (sensorUpdate cfg inp s).mapped_bin_id_left ≤
          cfg.signal_generator_settings.number_of_bins) ∧
    (inp.ready_right = true →
      (sensorUpdate cfg inp s).mapped_bin_id_right =
          binOf (sensorUpdate cfg inp s).filtered_sensor_value_right cfg.sensor_settings_right
            cfg.signal_generator_settings.number_of_bins ∧
        (sensorUpdate cfg inp s).mapped_bin_id_right ≤
          cfg.signal_generator_settings.number_of_bins) := by
  refine ⟨⟨Nat.zero_le _, binOf_le v st N⟩, ?_, ?_⟩
  · intro hrl
    rw [sensorUpdate_mapped_left, sensorUpdate_filtered_left, if_pos hrl, if_pos hrl]
    exact ⟨rfl, binOf_le _ _ _⟩
  · intro hrr
    rw [sensorUpdate_mapped_right, sensorUpdate_filtered_right, if_pos hrr, if_pos hrr]
    exact ⟨rfl, binOf_le _ _ _⟩

/-- Witness of C1 at the default calibration and bin count, with a filtered value below
the range and both sensors ready. -/
theorem sensor_update_bin_within_bin_count_witness :
    binOf (-5) {} 80 ≤ 80 ∧
    (sensorUpdate {} { ready_left := true, ready_right := true } {}).mapped_bin_id_left ≤ 80 ∧
    (sensorUpdate {} { ready_left := true, ready_right := true } {}).mapped_bin_id_right ≤ 80 :=
  ⟨(sensor_update_bin_within_bin_count {} { ready_left := true, ready_right := true } {} (-5)
      {} 80).1.2,
    ((sensor_update_bin_within_bin_count {} { ready_left := true, ready_right := true } {} (-5)
      {} 80).2.1 rfl).2,
    ((sensor_update_bin_within_bin_count {} { ready_left := true, ready_right := true } {} (-5)
      {} 80).2.2 rfl).2⟩

/-- C2: evaluation of the bin mapping below the calibrated range. With the range
`[2000, 10000]` and 80 bins the filtered values 0 and 1800 get bin 80 while the larger
value 2000 (the range minimum) gets bin 0, so the mapping is not monotonic; the value 1800
is the filtered value after the first sensor update from the initial state with a reading
at or below the minimum. The negative result of `map` wraps in the `uint16_t` bin id
before `constrain` is applied. -/
theorem bin_below_range_is_top_bin :
    binOf 0 { min_value := 2000, max_value := 10000 } 80 = 80 ∧
    binOf 1800 { min_value := 2000, max_value := 10000 } 80 = 80 ∧
    binOf 2000 { min_value := 2000, max_value := 10000 } 80 = 0 ∧
    (sensorUpdate { sensor_settings_left := { min_value := 2000, max_value := 10000 } }
      { ready_left := true, units_left := 0 } {}).filtered_sensor_value_left = 1800 ∧
    (sensorUpdate { sensor_settings_left := { min_value := 2000, max_value := 10000 } }
      { ready_left := true, units_left := 0 } {}).mapped_bin_id_left = 80 := by
  have hf : filterOf 0 { min_value := 2000, max_value := 10000 } 0 = 1800 := by
    unfold filterOf constrain
    norm_num
  refine ⟨by decide, by decide, by decide, ?_, ?_⟩
  · rw [sensorUpdate_filtered_left, if_pos rfl]
    exact hf
  · rw [sensorUpdate_mapped_left, if_pos rfl]
    show binOf (filterOf 0 { min_value := 2000, max_value := 10000 } 0) _ 80 = 80
    rw [hf]
    decide

/-- C3: with a degenerate calibration range (`min_value ≥ max_value`) the bin id is 0 for
every filtered value and every bin count, and the sensor update of `loop()` stores 0 for a
channel with such a range whose sensor is ready. -/
theorem degenerate_range_bin_is_zero (cfg : Settings) (inp : Inputs) (s : State) (v : ℚ)
    (st : SensorSettings) (N : Nat) (h : st.min_value ≥ st.max_value) :
    binOf v st N = 0 ∧
    (inp.ready_left = true →
      cfg.sensor_settings_left.min_value ≥ cfg.sensor_settings_left.max_value →
      (sensorUpdate cfg inp s).mapped_bin_id_left = 0) ∧
    (inp.ready_right = true →
      cfg.sensor_settings_right.min_value ≥ cfg.sensor_settings_right.max_value →
      (sensorUpdate cfg inp s).mapped_bin_id_right = 0) := by
  refine ⟨binOf_degenerate v st N h, ?_, ?_⟩
  · intro hrl hd
    rw [sensorUpdate_mapped_left, if_pos hrl]
    exact binOf_degenerate _ _ _ hd
  · intro hrr hd
    rw [sensorUpdate_mapped_right, if_pos hrr]
    exact binOf_degenerate _ _ _ hd

/-- Witness of C3 at the degenerate range `[500, 500]`. -/
theorem degenerate_range_bin_is_zero_witness :
    (500 ≥ 500) ∧
    binOf 700 { min_value := 500, max_value := 500 } 80 = 0 ∧
    (sensorUpdate
      { sensor_settings_left := { min_value := 500, max_value := 500 },
        sensor_settings_right := { min_value := 500, max_value := 500 } }
      { ready_left := true, units_left := 700, ready_right := true, units_right := 700 }
      {}).mapped_bin_id_left = 0 ∧
    (sensorUpdate
      { sensor_settings_left := { min_value := 500, max_value := 500 },
        sensor_settings_right := { min_value := 500, max_value := 500 } }
      { ready_left := true, units_left := 700, ready_right := true, units_right := 700 }
      {}).mapped_bin_id_right = 0 :=
  ⟨by decide,
    (degenerate_range_bin_is_zero
      { sensor_settings_left := { min_value := 500, max_value := 500 },
        sensor_settings_right := { min_value := 500, max_value := 500 } }
      { ready_left := true, units_left := 700, ready_right := true, units_right := 700 }
      {} 700 { min_value := 500, max_value := 500 } 80 (by decide)).1,
    (degenerate_range_bin_is_zero
      { sensor_settings_left := { min_value := 500, max_value := 500 },
        sensor_settings_right := { min_value := 500, max_value := 500 } }
      { ready_left := true, units_left := 700, ready_right := true, units_right := 700 }
      {} 700 { min_value := 500, max_value := 500 } 80 (by decide)).2.1 rfl (by decide),
    (degenerate_range_bin_is_zero
      { sensor_settings_left := { min_value := 500, max_value := 500 },
        sensor_settings_right := { min_value := 500, max_value := 500 } }
      { ready_left := true, units_left := 700, ready_right := true, units_right := 700 }
      {} 700 { min_value := 500, max_value := 500 } 80 (by decide)).2.2 rfl (by decide)⟩

/-- Value of `binOfTeensy` inside the calibrated range: the quotient of the
floating-point `map`, rounded down. -/
theorem binOfTeensy_in_range (v : ℚ) (st : SensorSettings) (N : Nat)
    (hlt : st.min_value < st.max_value) (hN : N < 65536)
    (hv1 : (st.min_value : ℚ) ≤ v) (hv2 : v ≤ (st.max_value : ℚ)) :
    binOfTeensy v st N =
        some ⌊(v - st.min_value) * N / ((st.max_value : ℚ) - st.min_value)⌋.toNat ∧
      0 ≤ ⌊(v - st.min_value) * N / ((st.max_value : ℚ) - st.min_value)⌋ ∧
      ⌊(v - st.min_value) * N / ((st.max_value : ℚ) - st.min_value)⌋ ≤ (N : Int) := by
  have hr : (0 : ℚ) < (st.max_value : ℚ) - st.min_value := by
    have : (st.min_value : ℚ) < (st.max_value : ℚ) := by exact_mod_cast hlt
    linarith
  have hN0 : (0 : ℚ) ≤ (N : ℚ) := by exact_mod_cast Nat.zero_le N
  have hq0 : (0 : ℚ) ≤ (v - st.min_value) * N / ((st.max_value : ℚ) - st.min_value) :=
    div_nonneg (mul_nonneg (by linarith) hN0) (le_of_lt hr)
  have hqN : (v - st.min_value) * N / ((st.max_value : ℚ) - st.min_value) ≤ (N : ℚ) := by
    rw [div_le_iff₀ hr]
    have : (v - st.min_value) * N ≤ ((st.max_value : ℚ) - st.min_value) * N :=
      mul_le_mul_of_nonneg_right (by linarith) hN0
    linarith
  have hf0 : 0 ≤ ⌊(v - st.min_value) * N / ((st.max_value : ℚ) - st.min_value)⌋ :=
    Int.floor_nonneg.mpr hq0
  have hfN : ⌊(v - st.min_value) * N / ((st.max_value : ℚ) - st.min_value)⌋ ≤ (N : Int) := by
    have h1 := Int.floor_le ((v - st.min_value) * N / ((st.max_value : ℚ) - st.min_value))
    have h2 : ((⌊(v - st.min_value) * N / ((st.max_value : ℚ) - st.min_value)⌋ : Int) : ℚ) ≤
        ((N : Int) : ℚ) := by
      push_cast
      exact le_trans h1 hqN
    exact_mod_cast h2
  have hmap : mapFloat v (st.min_value : ℚ) (st.max_value : ℚ) 0 (N : ℚ) =
      (v - st.min_value) * N / ((st.max_value : ℚ) - st.min_value) := by
    unfold mapFloat
    rw [sub_zero, add_zero]
  refine ⟨?_, hf0, hfN⟩
  generalize hq : ⌊(v - st.min_value) * N / ((st.max_value : ℚ) - st.min_value)⌋ = q
    at hf0 hfN
  have hconv : floatToU16 (mapFloat v (st.min_value : ℚ) (st.max_value : ℚ) 0 (N : ℚ)) =
      some q.toNat := by
    unfold floatToU16
    rw [hmap, truncQ_of_nonneg _ hq0, hq]
    simp only
    rw [if_pos ⟨hf0, by omega⟩]
  unfold binOfTeensy
  simp only [if_pos hlt, hconv]
  have hc : constrain ((q.toNat : Nat) : Int) 0 (N : Int) = q := by
    rw [Int.toNat_of_nonneg hf0]
    exact constrain_int_of_mem q 0 (N : Int) hf0 hfN
  rw [hc]
  have ht : toU16 q = q.toNat := by
    unfold toU16
    have : q % 65536 = q := Int.emod_eq_of_lt hf0 (by omega)
    rw [this]
  rw [ht]

/-- Two inputs on which the builds differ, both inside the calibrated range. The filtered
value `1/2` with the range `[0, 10]` gets bin 0 on the ESP32 build (the value is truncated
to the integer 0 when passed to the `long` `map`) and bin 4 on the Teensy build; the
filtered value 50000000 with the range `[0, 100000000]` gets bin 80 on the ESP32 build
(the product `50000000 * 80` does not fit the 32-bit `long`) and bin 40 on the Teensy
build. -/
theorem bin_differs_between_builds :
    ((binOf (1 / 2) { min_value := 0, max_value := 10 } 80 : Int) = 0 ∧
      binOfTeensy (1 / 2) { min_value := 0, max_value := 10 } 80 = some 4) ∧
    ((binOf 50000000 { min_value := 0, max_value := 100000000 } 80 : Int) = 80 ∧
      binOfTeensy 50000000 { min_value := 0, max_value := 100000000 } 80 = some 40) := by
  refine ⟨⟨?_, ?_⟩, ⟨by decide, ?_⟩⟩
  · rw [binOf_in_range (1 / 2) { min_value := 0, max_value := 10 } 80 (by decide) (by decide)
      (by decide) (by decide) (by norm_num) (by norm_num)]
    have : ⌊(1 / 2 : ℚ)⌋ = 0 := by norm_num
    rw [this]
    decide
  · rw [(binOfTeensy_in_range (1 / 2) { min_value := 0, max_value := 10 } 80 (by decide)
      (by decide) (by norm_num) (by norm_num)).1]
    have : ⌊((1 / 2 : ℚ) - ((0 : Nat) : ℚ)) * ((80 : Nat) : ℚ) /
        (((10 : Nat) : ℚ) - ((0 : Nat) : ℚ))⌋ = 4 := by
      rw [Int.floor_eq_iff]
      norm_num
    show some (Int.toNat ⌊((1 / 2 : ℚ) - ((0 : Nat) : ℚ)) * ((80 : Nat) : ℚ) /
        (((10 : Nat) : ℚ) - ((0 : Nat) : ℚ))⌋) = some 4
    rw [this]
    rfl
  · rw [(binOfTeensy_in_range 50000000 { min_value := 0, max_value := 100000000 } 80
      (by decide) (by decide) (by norm_num) (by norm_num)).1]
    have : ⌊((50000000 : ℚ) - ((0 : Nat) : ℚ)) * ((80 : Nat) : ℚ) /
        (((100000000 : Nat) : ℚ) - ((0 : Nat) : ℚ))⌋ = 40 := by
      rw [Int.floor_eq_iff]
      norm_num
    show some (Int.toNat ⌊((50000000 : ℚ) - ((0 : Nat) : ℚ)) * ((80 : Nat) : ℚ) /
        (((100000000 : Nat) : ℚ) - ((0 : Nat) : ℚ))⌋) = some 40
    rw [this]
    rfl

theorem loop_enabled (p : Platform) (cfg : Settings) (inp : Inputs) (s : State)
    (haug : cfg.augmentation_enabled = true) :
    loop p cfg inp s =
      sineModulationUpdate p cfg inp
        (pulseDurationHandling cfg inp (modeLogic p cfg inp (sensorUpdate cfg inp s))) := by
  simp [loop, haug]

/-- The pulse duration handling writes only the vibrating flags and the duties. -/
theorem pulseDurationHandling_frame (cfg : Settings) (inp : Inputs) (s : State) :
    (pulseDurationHandling cfg inp s).pulses_started_left = s.pulses_started_left ∧
    (pulseDurationHandling cfg inp s).pulses_started_right = s.pulses_started_right ∧
    (pulseDurationHandling cfg inp s).last_bin_id_left = s.last_bin_id_left ∧
    (pulseDurationHandling cfg inp s).last_bin_id_right = s.last_bin_id_right ∧
    (pulseDurationHandling cfg inp s).last_triggered_sensor_val_left =
      s.last_triggered_sensor_val_left ∧
    (pulseDurationHandling cfg inp s).last_triggered_sensor_val_right =
      s.last_triggered_sensor_val_right ∧
    (pulseDurationHandling cfg inp s).pulse_time_us_left = s.pulse_time_us_left ∧
    (pulseDurationHandling cfg inp s).pulse_time_us_right = s.pulse_time_us_right := by
  by_cases h1 : s.is_vibrating_left = true <;>
  by_cases h2 : s.is_vibrating_right = true <;>
  by_cases h3 : cfg.signal_generator_settings.duration_us ≤
      s.pulse_time_us_left.read inp.micros_check_left <;>
  by_cases h4 : cfg.signal_generator_settings.duration_us ≤
      s.pulse_time_us_right.read inp.micros_check_right <;>
  simp [pulseDurationHandling, StopPulse, h1, h2, h3, h4]

/-- Effect of the pulse duration handling on the left channel. -/
theorem pulseDurationHandling_left (cfg : Settings) (inp : Inputs) (s : State) :
    ((pulseDurationHandling cfg inp s).is_vibrating_left = true ↔
      s.is_vibrating_left = true ∧
        s.pulse_time_us_left.read inp.micros_check_left <
          cfg.signal_generator_settings.duration_us) ∧
    ((pulseDurationHandling cfg inp s).is_vibrating_left = false →
      s.is_vibrating_left = true → (pulseDurationHandling cfg inp s).duty_left = 0) ∧
    (s.is_vibrating_left = false → (pulseDurationHandling cfg inp s).duty_left = s.duty_left) := by
  by_cases h1 : s.is_vibrating_left = true <;>
  by_cases h2 : s.is_vibrating_right = true <;>
  by_cases h3 : cfg.signal_generator_settings.duration_us ≤
      s.pulse_time_us_left.read inp.micros_check_left <;>
  by_cases h4 : cfg.signal_generator_settings.duration_us ≤
      s.pulse_time_us_right.read inp.micros_check_right <;>
  simp [pulseDurationHandling, StopPulse, h1, h2, h3, h4] <;> omega

/-- Effect of the pulse duration handling on the right channel. -/
theorem pulseDurationHandling_right (cfg : Settings) (inp : Inputs) (s : State) :
    ((pulseDurationHandling cfg inp s).is_vibrating_right = true ↔
      s.is_vibrating_right = true ∧
        s.pulse_time_us_right.read inp.micros_check_right <
          cfg.signal_generator_settings.duration_us) ∧
    ((pulseDurationHandling cfg inp s).is_vibrating_right = false →
      s.is_vibrating_right = true → (pulseDurationHandling cfg inp s).duty_right = 0) ∧
    (s.is_vibrating_right = false →
      (pulseDurationHandling cfg inp s).duty_right = s.duty_right) := by
  by_cases h1 : s.is_vibrating_left = true <;>
  by_cases h2 : s.is_vibrating_right = true <;>
  by_cases h3 : cfg.signal_generator_settings.duration_us ≤
      s.pulse_time_us_left.read inp.micros_check_left <;>
  by_cases h4 : cfg.signal_generator_settings.duration_us ≤
      s.pulse_time_us_right.read inp.micros_check_right <;>
  simp [pulseDurationHandling, StopPulse, h1, h2, h3, h4] <;> omega

/-- The modulation update writes only the phase, the modulation timer and, on the
Teensy build, the duty of a vibrating channel. -/
theorem sineModulationUpdate_frame (p : Platform) (cfg : Settings) (inp : Inputs) (s : State) :
    (sineModulationUpdate p cfg inp s).is_vibrating_left = s.is_vibrating_left ∧
    (sineModulationUpdate p cfg inp s).is_vibrating_right = s.is_vibrating_right ∧
    (sineModulationUpdate p cfg inp s).pulses_started_left = s.pulses_started_left ∧
    (sineModulationUpdate p cfg inp s).pulses_started_right = s.pulses_started_right ∧
    (sineModulationUpdate p cfg inp s).last_bin_id_left = s.last_bin_id_left ∧
    (sineModulationUpdate p cfg inp s).last_bin_id_right = s.last_bin_id_right ∧
    (sineModulationUpdate p cfg inp s).last_triggered_sensor_val_left =
      s.last_triggered_sensor_val_left ∧
    (sineModulationUpdate p cfg inp s).last_triggered_sensor_val_right =
      s.last_triggered_sensor_val_right ∧
    (sineModulationUpdate p cfg inp s).pulse_time_us_left = s.pulse_time_us_left ∧
    (sineModulationUpdate p cfg inp s).pulse_time_us_right = s.pulse_time_us_right ∧
    (s.is_vibrating_left = false →
      (sineModulationUpdate p cfg inp s).duty_left = s.duty_left) ∧
    (s.is_vibrating_right = false →
      (sineModulationUpdate p cfg inp s).duty_right = s.duty_right) := by
  cases hb : p.board <;>
  by_cases h1 : s.is_vibrating_left = true <;>
  by_cases h2 : s.is_vibrating_right = true <;>
  simp [sineModulationUpdate, hb, h1, h2]

/-- Effect of Individual mode on the left channel. -/
theorem individualMode_left (p : Platform) (cfg : Settings) (inp : Inputs) (s : State) :
    (individualMode p cfg inp s).pulses_started_left =
        s.pulses_started_left +
          (if s.mapped_bin_id_left ≠ s.last_bin_id_left ∧
            s.filtered_sensor_value_left > cfg.threshold_to_start_trigger then 1 else 0) ∧
      (individualMode p cfg inp s).last_bin_id_left =
        (if s.mapped_bin_id_left ≠ s.last_bin_id_left ∧
            s.filtered_sensor_value_left > cfg.threshold_to_start_trigger
          then s.mapped_bin_id_left else s.last_bin_id_left) ∧
      (individualMode p cfg inp s).last_triggered_sensor_val_left =
        (if s.mapped_bin_id_left ≠ s.last_bin_id_left ∧
            s.filtered_sensor_value_left > cfg.threshold_to_start_trigger
          then s.filtered_sensor_value_left else s.last_triggered_sensor_val_left) ∧
      (individualMode p cfg inp s).is_vibrating_left =
        (if s.mapped_bin_id_left ≠ s.last_bin_id_left ∧
            s.filtered_sensor_value_left > cfg.threshold_to_start_trigger
          then true else s.is_vibrating_left) ∧
      (individualMode p cfg inp s).pulse_time_us_left =
        (if s.mapped_bin_id_left ≠ s.last_bin_id_left ∧
            s.filtered_sensor_value_left > cfg.threshold_to_start_trigger
          then elapsedMicros.assign inp.micros_start_left 0 else s.pulse_time_us_left) ∧
      ((s.is_vibrating_left = false → s.duty_left = 0) →
        (individualMode p cfg inp s).is_vibrating_left = false →
        (individualMode p cfg inp s).duty_left = 0) := by
  by_cases h1 : s.mapped_bin_id_left = s.last_bin_id_left <;>
  by_cases h2 : cfg.threshold_to_start_trigger < s.filtered_sensor_value_left <;>
  by_cases h3 : s.is_vibrating_left = true <;>
  by_cases h4 : s.mapped_bin_id_right = s.last_bin_id_right <;>
  by_cases h5 : cfg.threshold_to_start_trigger < s.filtered_sensor_value_right <;>
  by_cases h6 : s.is_vibrating_right = true <;>
  simp [individualMode, StartPulse, StopPulse, h1, h2, h3, h4, h5, h6]

/-- Effect of Individual mode on the right channel. -/
theorem individualMode_right (p : Platform) (cfg : Settings) (inp : Inputs) (s : State) :
    (individualMode p cfg inp s).pulses_started_right =
        s.pulses_started_right +
          (if s.mapped_bin_id_right ≠ s.last_bin_id_right ∧
            s.filtered_sensor_value_right > cfg.threshold_to_start_trigger then 1 else 0) ∧
      (individualMode p cfg inp s).last_bin_id_right =
        (if s.mapped_bin_id_right ≠ s.last_bin_id_right ∧
            s.filtered_sensor_value_right > cfg.threshold_to_start_trigger
          then s.mapped_bin_id_right else s.last_bin_id_right) ∧
      (individualMode p cfg inp s).last_triggered_sensor_val_right =
        (if s.mapped_bin_id_right ≠ s.last_bin_id_right ∧
            s.filtered_sensor_value_right > cfg.threshold_to_start_trigger
          then s.filtered_sensor_value_right else s.last_triggered_sensor_val_right) ∧
      (individualMode p cfg inp s).is_vibrating_right =
        (if s.mapped_bin_id_right ≠ s.last_bin_id_right ∧
            s.filtered_sensor_value_right > cfg.threshold_to_start_trigger
          then true else s.is_vibrating_right) ∧
      (individualMode p cfg inp s).pulse_time_us_right =
        (if s.mapped_bin_id_right ≠ s.last_bin_id_right ∧
            s.filtered_sensor_value_right > cfg.threshold_to_start_trigger
          then elapsedMicros.assign inp.micros_start_right 0 else s.pulse_time_us_right) ∧
      ((s.is_vibrating_right = false → s.duty_right = 0) →
        (individualMode p cfg inp s).is_vibrating_right = false →
        (individualMode p cfg inp s).duty_right = 0) := by
  by_cases h1 : s.mapped_bin_id_left = s.last_bin_id_left <;>
  by_cases h2 : cfg.threshold_to_start_trigger < s.filtered_sensor_value_left <;>
  by_cases h3 : s.is_vibrating_left = true <;>
  by_cases h4 : s.mapped_bin_id_right = s.last_bin_id_right <;>
  by_cases h5 : cfg.threshold_to_start_trigger < s.filtered_sensor_value_right <;>
  by_cases h6 : s.is_vibrating_right = true <;>
  simp [individualMode, StartPulse, StopPulse, h1, h2, h3, h4, h5, h6]

/-- With augmentation enabled, what one pass of `loop()` leaves is determined by the state
after the mode logic: the duration handling and the modulation update keep the counters,
the last-triggered data and the pulse timers, and clear the vibrating flag of a channel
exactly when its timer has reached the pulse duration. -/
theorem loop_after_modeLogic (p : Platform) (cfg : Settings) (inp : Inputs) (s : State)
    (haug : cfg.augmentation_enabled = true) :
    (loop p cfg inp s).pulses_started_left =
      (modeLogic p cfg inp (sensorUpdate cfg inp s)).pulses_started_left ∧
    (loop p cfg inp s).pulses_started_right =
      (modeLogic p cfg inp (sensorUpdate cfg inp s)).pulses_started_right ∧
    (loop p cfg inp s).last_bin_id_left =
      (modeLogic p cfg inp (sensorUpdate cfg inp s)).last_bin_id_left ∧
    (loop p cfg inp s).last_bin_id_right =
      (modeLogic p cfg inp (sensorUpdate cfg inp s)).last_bin_id_right ∧
    (loop p cfg inp s).last_triggered_sensor_val_left =
      (modeLogic p cfg inp (sensorUpdate cfg inp s)).last_triggered_sensor_val_left ∧
    (loop p cfg inp s).last_triggered_sensor_val_right =
      (modeLogic p cfg inp (sensorUpdate cfg inp s)).last_triggered_sensor_val_right ∧
    (loop p cfg inp s).pulse_time_us_left =
      (modeLogic p cfg inp (sensorUpdate cfg inp s)).pulse_time_us_left ∧
    (loop p cfg inp s).pulse_time_us_right =
      (modeLogic p cfg inp (sensorUpdate cfg inp s)).pulse_time_us_right ∧
    ((loop p cfg inp s).is_vibrating_left = true ↔
      (modeLogic p cfg inp (sensorUpdate cfg inp s)).is_vibrating_left = true ∧
        (modeLogic p cfg inp (sensorUpdate cfg inp s)).pulse_time_us_left.read
            inp.micros_check_left < cfg.signal_generator_settings.duration_us) ∧
    ((loop p cfg inp s).is_vibrating_right = true ↔
      (modeLogic p cfg inp (sensorUpdate cfg inp s)).is_vibrating_right = true ∧
        (modeLogic p cfg inp (sensorUpdate cfg inp s)).pulse_time_us_right.read
            inp.micros_check_right < cfg.signal_generator_settings.duration_us) ∧
    (((modeLogic p cfg inp (sensorUpdate cfg inp s)).is_vibrating_left = false →
        (modeLogic p cfg inp (sensorUpdate cfg inp s)).duty_left = 0) →
      (loop p cfg inp s).is_vibrating_left = false → (loop p cfg inp s).duty_left = 0) ∧
    (((modeLogic p cfg inp (sensorUpdate cfg inp s)).is_vibrating_right = false →
        (modeLogic p cfg inp (sensorUpdate cfg inp s)).duty_right = 0) →
      (loop p cfg inp s).is_vibrating_right = false → (loop p cfg inp s).duty_right = 0) := by
  rw [loop_enabled p cfg inp s haug]
  generalize modeLogic p cfg inp (sensorUpdate cfg inp s) = m
  obtain ⟨a1, a2, a3, a4, a5, a6, a7, a8, a9, a10, a11, a12⟩ :=
    sineModulationUpdate_frame p cfg inp (pulseDurationHandling cfg inp m)
  obtain ⟨b1, b2, b3, b4, b5, b6, b7, b8⟩ := pulseDurationHandling_frame cfg inp m
  obtain ⟨c1, c2, c3⟩ := pulseDurationHandling_left cfg inp m
  obtain ⟨d1, d2, d3⟩ := pulseDurationHandling_right cfg inp m
  rw [a1, a2, a3, a4, a5, a6, a7, a8, a9, a10, b1, b2, b3, b4, b5, b6, b7, b8]
  refine ⟨rfl, rfl, rfl, rfl, rfl, rfl, rfl, rfl, c1, d1, ?_, ?_⟩
  · intro hw hf
    rw [a11 hf]
    cases hm : m.is_vibrating_left
    · rw [c3 hm]
      exact hw hm
    · exact c2 hf hm
  · intro hw hf
    rw [a12 hf]
    cases hm : m.is_vibrating_right
    · rw [d3 hm]
      exact hw hm
    · exact d2 hf hm

/-! ## Individual mode (claim C5) -/

/-- C5: in Individual mode with augmentation enabled, for each channel and every pre-tick
state and inputs, one pass of `loop()` starts a pulse on the channel (exactly one
`StartPulse` call) if and only if the channel's current bin (after the sensor update of the
pass) differs from its last-triggered bin and its filtered value is strictly greater than
the threshold, and otherwise starts none. When it starts one, `last_bin_id` becomes the
current bin and the mode logic leaves the channel active (it is still active after the
duration handling of the same pass exactly when the fresh pulse timer reads less than
`duration_us`). When the bins are equal no pulse is started and `last_bin_id` and
`last_triggered_sensor_val` are unchanged. -/
theorem individual_mode_retrigger (p : Platform) (cfg : Settings) (inp : Inputs) (s : State)
    (haug : cfg.augmentation_enabled = true)
    (hmode : cfg.Vibration_mode = VibrationMode.INDIVIDUAL) :
    ((((loop p cfg inp s).pulses_started_left = s.pulses_started_left + 1 ↔
          ((sensorUpdate cfg inp s).mapped_bin_id_left ≠ s.last_bin_id_left ∧
            (sensorUpdate cfg inp s).filtered_sensor_value_left >
              cfg.threshold_to_start_trigger)) ∧
        ((loop p cfg inp s).pulses_started_left = s.pulses_started_left ∨
          (loop p cfg inp s).pulses_started_left = s.pulses_started_left + 1)) ∧
      ((loop p cfg inp s).pulses_started_left = s.pulses_started_left + 1 →
        (loop p cfg inp s).last_bin_id_left = (sensorUpdate cfg inp s).mapped_bin_id_left ∧
        (modeLogic p cfg inp (sensorUpdate cfg inp s)).is_vibrating_left = true ∧
        ((loop p cfg inp s).is_vibrating_left = true ↔
          (elapsedMicros.assign inp.micros_start_left 0).read inp.micros_check_left <
            cfg.signal_generator_settings.duration_us)) ∧
      ((sensorUpdate cfg inp s).mapped_bin_id_left = s.last_bin_id_left →
        (loop p cfg inp s).pulses_started_left = s.pulses_started_left ∧
        (loop p cfg inp s).last_bin_id_left = s.last_bin_id_left ∧
        (loop p cfg inp s).last_triggered_sensor_val_left =
          s.last_triggered_sensor_val_left)) ∧
    ((((loop p cfg inp s).pulses_started_right = s.pulses_started_right + 1 ↔
          ((sensorUpdate cfg inp s).mapped_bin_id_right ≠ s.last_bin_id_right ∧
            (sensorUpdate cfg inp s).filtered_sensor_value_right >
              cfg.threshold_to_start_trigger)) ∧
        ((loop p cfg inp s).pulses_started_right = s.pulses_started_right ∨
          (loop p cfg inp s).pulses_started_right = s.pulses_started_right + 1)) ∧
      ((loop p cfg inp s).pulses_started_right = s.pulses_started_right + 1 →
        (loop p cfg inp s).last_bin_id_right = (sensorUpdate cfg inp s).mapped_bin_id_right ∧
        (modeLogic p cfg inp (sensorUpdate cfg inp s)).is_vibrating_right = true ∧
        ((loop p cfg inp s).is_vibrating_right = true ↔
          (elapsedMicros.assign inp.micros_start_right 0).read inp.micros_check_right <
            cfg.signal_generator_settings.duration_us)) ∧
      ((sensorUpdate cfg inp s).mapped_bin_id_right = s.last_bin_id_right →
        (loop p cfg inp s).pulses_started_right = s.pulses_started_right ∧
        (loop p cfg inp s).last_bin_id_right = s.last_bin_id_right ∧
        (loop p cfg inp s).last_triggered_sensor_val_right =
          s.last_triggered_sensor_val_right)) := by
  obtain ⟨l1, l2, l3, l4, l5, l6, _, _, l9, l10, _, _⟩ := loop_after_modeLogic p cfg inp s haug
  have hm : modeLogic p cfg inp (sensorUpdate cfg inp s) =
      individualMode p cfg inp (sensorUpdate cfg inp s) := by
    simp [modeLogic, hmode]
  rw [hm] at l1 l2 l3 l4 l5 l6 l9 l10
  obtain ⟨_, _, _, _, _, _, f7, f8, f9, f10, f11, f12, _, _⟩ := sensorUpdate_frame cfg inp s
  obtain ⟨a1, a2, a3, a4, a5, _⟩ := individualMode_left p cfg inp (sensorUpdate cfg inp s)
  obtain ⟨b1, b2, b3, b4, b5, _⟩ := individualMode_right p cfg inp (sensorUpdate cfg inp s)
  simp only [f7, f9, f11] at a1 a2 a3 a4 a5
  simp only [f8, f10, f12] at b1 b2 b3 b4 b5
  rw [hm, l1, l2, l3, l4, l5, l6, l9, l10, a1, a2, a3, a4, a5, b1, b2, b3, b4, b5]
  constructor
  · by_cases hc : (sensorUpdate cfg inp s).mapped_bin_id_left ≠ s.last_bin_id_left ∧
        (sensorUpdate cfg inp s).filtered_sensor_value_left > cfg.threshold_to_start_trigger
    · simp [hc]
    · simp only [hc, if_false]
      simp
  · by_cases hc : (sensorUpdate cfg inp s).mapped_bin_id_right ≠ s.last_bin_id_right ∧
        (sensorUpdate cfg inp s).filtered_sensor_value_right > cfg.threshold_to_start_trigger
    · simp [hc]
    · simp only [hc, if_false]
      simp

/-- Witness of C5: the left bin stays 5 while the filtered value has risen from 650 to
680; the pass starts no pulse and keeps `last_bin_id_left` and
`last_triggered_sensor_val_left`. -/
theorem individual_mode_retrigger_witness :
    (individualOn.augmentation_enabled = true ∧
      individualOn.Vibration_mode = VibrationMode.INDIVIDUAL ∧
      (sensorUpdate individualOn quietPass risingSameBin).mapped_bin_id_left =
        risingSameBin.last_bin_id_left) ∧
    (loop esp32 individualOn quietPass risingSameBin).pulses_started_left =
      risingSameBin.pulses_started_left ∧
    (loop esp32 individualOn quietPass risingSameBin).last_bin_id_left = 5 ∧
    (loop esp32 individualOn quietPass risingSameBin).last_triggered_sensor_val_left = 650 :=
  ⟨⟨by decide, by decide, by decide⟩,
    (individual_mode_retrigger esp32 individualOn quietPass risingSameBin (by decide)
      (by decide)).1.2.2 (by decide)⟩

/-! ## Max Value mode, field by field -/

/-- Max Value mode never leaves both channels vibrating when they were not both
vibrating before, and it keeps the convention that an idle channel has duty 0. -/
theorem maxValueMode_flags (p : Platform) (cfg : Settings) (inp : Inputs) (s : State) :
    (¬ (s.is_vibrating_left = true ∧ s.is_vibrating_right = true) →
      ¬ ((maxValueMode p cfg inp s).is_vibrating_left = true ∧
        (maxValueMode p cfg inp s).is_vibrating_right = true)) ∧
    ((s.is_vibrating_left = false → s.duty_left = 0) →
      (maxValueMode p cfg inp s).is_vibrating_left = false →
      (maxValueMode p cfg inp s).duty_left = 0) ∧
    ((s.is_vibrating_right = false → s.duty_right = 0) →
      (maxValueMode p cfg inp s).is_vibrating_right = false →
      (maxValueMode p cfg inp s).duty_right = 0) := by
  have key : ∀ a b : ℚ, (a ≤ b) = ¬ (b < a) := fun a b => propext not_lt.symm
  by_cases h1 : s.is_vibrating_left = true <;>
  by_cases h2 : s.is_vibrating_right = true <;>
  by_cases h3 : s.filtered_sensor_value_left < s.filtered_sensor_value_right <;>
  by_cases h4 : cfg.threshold_to_start_trigger < s.filtered_sensor_value_left <;>
  by_cases h5 : cfg.threshold_to_start_trigger < s.filtered_sensor_value_right <;>
  by_cases h6 : maxValueBin cfg s = max s.last_bin_id_left s.last_bin_id_right <;>
  simp [-not_lt, key, maxValueMode, maxValueTarget, StartPulse, StopPulse,
    h1, h2, h3, h4, h5, h6]

/-- When the larger filtered value does not exceed the threshold, Max Value mode leaves
both channels idle. -/
theorem maxValueMode_below_threshold (p : Platform) (cfg : Settings) (inp : Inputs)
    (s : State)
    (h : max s.filtered_sensor_value_left s.filtered_sensor_value_right ≤
      cfg.threshold_to_start_trigger) :
    (maxValueMode p cfg inp s).is_vibrating_left = false ∧
    (maxValueMode p cfg inp s).is_vibrating_right = false ∧
    (maxValueMode p cfg inp s).pulses_started_left = s.pulses_started_left ∧
    (maxValueMode p cfg inp s).pulses_started_right = s.pulses_started_right := by
  have key : ∀ a b : ℚ, (a ≤ b) = ¬ (b < a) := fun a b => propext not_lt.symm
  have h4 : ¬ cfg.threshold_to_start_trigger < s.filtered_sensor_value_left :=
    not_lt.mpr (le_trans (le_max_left _ _) h)
  have h5 : ¬ cfg.threshold_to_start_trigger < s.filtered_sensor_value_right :=
    not_lt.mpr (le_trans (le_max_right _ _) h)
  by_cases h1 : s.is_vibrating_left = true <;>
  by_cases h2 : s.is_vibrating_right = true <;>
  by_cases h3 : s.filtered_sensor_value_left < s.filtered_sensor_value_right <;>
  by_cases h6 : maxValueBin cfg s = max s.last_bin_id_left s.last_bin_id_right <;>
  simp [-not_lt, key, maxValueMode, maxValueTarget, StartPulse, StopPulse,
    h1, h2, h3, h4, h5, h6]

/-- A pass of Max Value mode that starts no pulse on a channel keeps that channel's pulse
timer and does not turn the channel on. -/
theorem maxValueMode_no_start (p : Platform) (cfg : Settings) (inp : Inputs) (s : State) :
    ((maxValueMode p cfg inp s).pulses_started_left = s.pulses_started_left →
      (maxValueMode p cfg inp s).pulse_time_us_left = s.pulse_time_us_left ∧
      ((maxValueMode p cfg inp s).is_vibrating_left = true → s.is_vibrating_left = true)) ∧
    ((maxValueMode p cfg inp s).pulses_started_right = s.pulses_started_right →
      (maxValueMode p cfg inp s).pulse_time_us_right = s.pulse_time_us_right ∧
      ((maxValueMode p cfg inp s).is_vibrating_right = true →
        s.is_vibrating_right = true)) := by
  have key : ∀ a b : ℚ, (a ≤ b) = ¬ (b < a) := fun a b => propext not_lt.symm
  by_cases h1 : s.is_vibrating_left = true <;>
  by_cases h2 : s.is_vibrating_right = true <;>
  by_cases h3 : s.filtered_sensor_value_left < s.filtered_sensor_value_right <;>
  by_cases h4 : cfg.threshold_to_start_trigger < s.filtered_sensor_value_left <;>
  by_cases h5 : cfg.threshold_to_start_trigger < s.filtered_sensor_value_right <;>
  by_cases h6 : maxValueBin cfg s = max s.last_bin_id_left s.last_bin_id_right <;>
  simp [-not_lt, key, maxValueMode, maxValueTarget, StartPulse, StopPulse,
    h1, h2, h3, h4, h5, h6]

/-- A pass of Individual mode that starts no pulse on a channel keeps that channel's
pulse timer and vibrating flag. -/
theorem individualMode_no_start (p : Platform) (cfg : Settings) (inp : Inputs) (s : State) :
    ((individualMode p cfg inp s).pulses_started_left = s.pulses_started_left →
      (individualMode p cfg inp s).pulse_time_us_left = s.pulse_time_us_left ∧
      ((individualMode p cfg inp s).is_vibrating_left = true → s.is_vibrating_left = true)) ∧
    ((individualMode p cfg inp s).pulses_started_right = s.pulses_started_right →
      (individualMode p cfg inp s).pulse_time_us_right = s.pulse_time_us_right ∧
      ((individualMode p cfg inp s).is_vibrating_right = true →
        s.is_vibrating_right = true)) := by
  by_cases h1 : s.mapped_bin_id_left = s.last_bin_id_left <;>
  by_cases h2 : cfg.threshold_to_start_trigger < s.filtered_sensor_value_left <;>
  by_cases h3 : s.is_vibrating_left = true <;>
  by_cases h4 : s.mapped_bin_id_right = s.last_bin_id_right <;>
  by_cases h5 : cfg.threshold_to_start_trigger < s.filtered_sensor_value_right <;>
  by_cases h6 : s.is_vibrating_right = true <;>
  simp [individualMode, StartPulse, StopPulse, h1, h2, h3, h4, h5, h6]

/-! ## Combined mode, field by field -/

/-- Effect of Combined mode on the pulse counters, timers and flags: both pulses are
started exactly when `trigger_change` and `should_vibrate_combined` hold. -/
theorem combinedMode_effect (p : Platform) (cfg : Settings) (inp : Inputs) (s : State) :
    ((combinedMode p cfg inp s).pulses_started_left =
      s.pulses_started_left +
        (if combinedShouldVibrate cfg s = true ∧
            (combinedTriggeringBin cfg inp s ≠ s.prev_triggering_bin_id_combined ∨
              s.was_vibrating_combined = false) then 1 else 0)) ∧
    ((combinedMode p cfg inp s).pulses_started_right =
      s.pulses_started_right +
        (if combinedShouldVibrate cfg s = true ∧
            (combinedTriggeringBin cfg inp s ≠ s.prev_triggering_bin_id_combined ∨
              s.was_vibrating_combined = false) then 1 else 0)) ∧
    (s.is_vibrating_left = s.is_vibrating_right →
      (combinedMode p cfg inp s).is_vibrating_left =
        (combinedMode p cfg inp s).is_vibrating_right) ∧
    ((s.is_vibrating_left = true → s.pulse_time_us_left = s.pulse_time_us_right) →
      inp.micros_start_left = inp.micros_start_right →
      (combinedMode p cfg inp s).is_vibrating_left = true →
      (combinedMode p cfg inp s).pulse_time_us_left =
        (combinedMode p cfg inp s).pulse_time_us_right) ∧
    ((s.is_vibrating_left = false → s.duty_left = 0) →
      (combinedMode p cfg inp s).is_vibrating_left = false →
      (combinedMode p cfg inp s).duty_left = 0) ∧
    ((s.is_vibrating_right = false → s.duty_right = 0) →
      (combinedMode p cfg inp s).is_vibrating_right = false →
      (combinedMode p cfg inp s).duty_right = 0) := by
  cases h1 : s.is_vibrating_left <;>
  cases h2 : s.is_vibrating_right <;>
  cases h3 : combinedShouldVibrate cfg s <;>
  cases h4 : s.was_vibrating_combined <;>
  by_cases h5 : combinedTriggeringBin cfg inp s = s.prev_triggering_bin_id_combined <;>
  simp [combinedMode, StartPulse, StopPulse, h1, h2, h3, h4, h5] <;>
  (intros; simp_all)

/-- A pass of Combined mode that starts no pulse on a channel keeps that channel's pulse
timer and does not turn the channel on. -/
theorem combinedMode_no_start (p : Platform) (cfg : Settings) (inp : Inputs) (s : State) :
    ((combinedMode p cfg inp s).pulses_started_left = s.pulses_started_left →
      (combinedMode p cfg inp s).pulse_time_us_left = s.pulse_time_us_left ∧
      ((combinedMode p cfg inp s).is_vibrating_left = true → s.is_vibrating_left = true)) ∧
    ((combinedMode p cfg inp s).pulses_started_right = s.pulses_started_right →
      (combinedMode p cfg inp s).pulse_time_us_right = s.pulse_time_us_right ∧
      ((combinedMode p cfg inp s).is_vibrating_right = true →
        s.is_vibrating_right = true)) := by
  cases h1 : s.is_vibrating_left <;>
  cases h2 : s.is_vibrating_right <;>
  cases h3 : combinedShouldVibrate cfg s <;>
  cases h4 : s.was_vibrating_combined <;>
  by_cases h5 : combinedTriggeringBin cfg inp s = s.prev_triggering_bin_id_combined <;>
  simp [combinedMode, StartPulse, StopPulse, h1, h2, h3, h4, h5]

/-! ## Facts that hold in every mode -/

/-- In every mode, a pass of the mode logic that starts no pulse on a channel keeps that
channel's pulse timer and does not turn the channel on. -/
theorem modeLogic_no_start (p : Platform) (cfg : Settings) (inp : Inputs) (s : State) :
    ((modeLogic p cfg inp s).pulses_started_left = s.pulses_started_left →
      (modeLogic p cfg inp s).pulse_time_us_left = s.pulse_time_us_left ∧
      ((modeLogic p cfg inp s).is_vibrating_left = true → s.is_vibrating_left = true)) ∧
    ((modeLogic p cfg inp s).pulses_started_right = s.pulses_started_right →
      (modeLogic p cfg inp s).pulse_time_us_right = s.pulse_time_us_right ∧
      ((modeLogic p cfg inp s).is_vibrating_right = true → s.is_vibrating_right = true)) := by
  unfold modeLogic
  cases cfg.Vibration_mode
  · exact individualMode_no_start p cfg inp s
  · exact maxValueMode_no_start p cfg inp s
  · exact combinedMode_no_start p cfg inp s

/-- In every mode the mode logic keeps the convention that an idle channel has duty 0. -/
theorem modeLogic_idle_duty (p : Platform) (cfg : Settings) (inp : Inputs) (s : State) :
    ((s.is_vibrating_left = false → s.duty_left = 0) →
      (modeLogic p cfg inp s).is_vibrating_left = false →
      (modeLogic p cfg inp s).duty_left = 0) ∧
    ((s.is_vibrating_right = false → s.duty_right = 0) →
      (modeLogic p cfg inp s).is_vibrating_right = false →
      (modeLogic p cfg inp s).duty_right = 0) := by
  unfold modeLogic
  cases cfg.Vibration_mode
  · exact ⟨(individualMode_left p cfg inp s).2.2.2.2.2, (individualMode_right p cfg inp s).2.2.2.2.2⟩
  · exact (maxValueMode_flags p cfg inp s).2
  · exact (combinedMode_effect p cfg inp s).2.2.2.2

/-- The augmentation-disabled branch leaves both channels idle with duty 0 when idle
channels had duty 0 before. -/
theorem augmentationDisabled_idle (s : State)
    (hl : s.is_vibrating_left = false → s.duty_left = 0)
    (hr : s.is_vibrating_right = false → s.duty_right = 0) :
    (augmentationDisabled s).is_vibrating_left = false ∧
    (augmentationDisabled s).is_vibrating_right = false ∧
    (augmentationDisabled s).duty_left = 0 ∧
    (augmentationDisabled s).duty_right = 0 := by
  cases h1 : s.is_vibrating_left <;>
  cases h2 : s.is_vibrating_right <;>
  simp [augmentationDisabled, StopPulse, h1, h2] <;> simp_all

/-- Every pass of `loop()`, in every mode and with augmentation on or off, keeps the
convention that an idle channel has duty 0. -/
theorem loop_idle_duty (p : Platform) (cfg : Settings) (inp : Inputs) (s : State)
    (hl : s.is_vibrating_left = false → s.duty_left = 0)
    (hr : s.is_vibrating_right = false → s.duty_right = 0) :
    ((loop p cfg inp s).is_vibrating_left = false → (loop p cfg inp s).duty_left = 0) ∧
    ((loop p cfg inp s).is_vibrating_right = false → (loop p cfg inp s).duty_right = 0) := by
  obtain ⟨f1, f2, f3, f4, _⟩ := sensorUpdate_frame cfg inp s
  cases haug : cfg.augmentation_enabled
  · have h := augmentationDisabled_idle (sensorUpdate cfg inp s)
      (by rw [f1, f3]; exact hl) (by rw [f2, f4]; exact hr)
    have e : loop p cfg inp s = augmentationDisabled (sensorUpdate cfg inp s) := by
      simp [loop, haug]
    rw [e]
    exact ⟨fun _ => h.2.2.1, fun _ => h.2.2.2⟩
  · obtain ⟨_, _, _, _, _, _, _, _, _, _, l11, l12⟩ := loop_after_modeLogic p cfg inp s haug
    obtain ⟨m1, m2⟩ := modeLogic_idle_duty p cfg inp (sensorUpdate cfg inp s)
    exact ⟨l11 (m1 (by rw [f1, f3]; exact hl)), l12 (m2 (by rw [f2, f4]; exact hr))⟩

/-! ## Combined mode retriggering (claim C6) -/

/-- One pass of `loop()` in Max Value mode with augmentation enabled does not leave both
channels vibrating when they were not both vibrating before. -/
theorem loop_maxValue_exclusive (p : Platform) (cfg : Settings) (inp : Inputs) (s : State)
    (haug : cfg.augmentation_enabled = true)
    (hmode : cfg.Vibration_mode = VibrationMode.MAX_VALUE)
    (h : ¬ (s.is_vibrating_left = true ∧ s.is_vibrating_right = true)) :
    ¬ ((loop p cfg inp s).is_vibrating_left = true ∧
      (loop p cfg inp s).is_vibrating_right = true) := by
  obtain ⟨_, _, _, _, _, _, _, _, l9, l10, _, _⟩ := loop_after_modeLogic p cfg inp s haug
  have hm : modeLogic p cfg inp (sensorUpdate cfg inp s) =
      maxValueMode p cfg inp (sensorUpdate cfg inp s) := by
    simp [modeLogic, hmode]
  obtain ⟨f1, f2, _⟩ := sensorUpdate_frame cfg inp s
  have hx := (maxValueMode_flags p cfg inp (sensorUpdate cfg inp s)).1
    (by rw [f1, f2]; exact h)
  rw [l9, l10, hm]
  rintro ⟨⟨a, _⟩, ⟨b, _⟩⟩
  exact hx ⟨a, b⟩

/-- Exclusivity along a run of Max Value passes. -/
theorem runLoop_maxValue_exclusive (p : Platform) (run : List (Settings × Inputs)) :
    ∀ s : State,
      ¬ (s.is_vibrating_left = true ∧ s.is_vibrating_right = true) →
      (∀ x ∈ run, x.1.augmentation_enabled = true ∧
        x.1.Vibration_mode = VibrationMode.MAX_VALUE) →
      ¬ ((runLoop p s run).is_vibrating_left = true ∧
        (runLoop p s run).is_vibrating_right = true) := by
  induction run with
  | nil =>
    intro s h _
    exact h
  | cons x rest ih =>
    intro s h hrun
    obtain ⟨cfg, inp⟩ := x
    have hx := hrun (cfg, inp) (List.mem_cons_self _ _)
    exact ih (loop p cfg inp s) (loop_maxValue_exclusive p cfg inp s hx.1 hx.2 h)
      (fun y hy => hrun y (List.mem_cons_of_mem _ hy))

/-- C7: in Max Value mode at most one channel is active at any tick boundary: for every
run that starts with both channels idle and executes only Max Value passes with
augmentation enabled, whatever the settings (calibration ranges, bin count, duration),
sensor readings and clock readings of each pass, after every pass (after the first `k`
passes, for every `k`) `is_vibrating_left` and `is_vibrating_right` are not both true:
one of them is false. -/
theorem max_value_mode_at_most_one_active (p : Platform) (s0 : State)
    (run : List (Settings × Inputs))
    (hidle : s0.is_vibrating_left = false ∧ s0.is_vibrating_right = false)
    (hrun : ∀ x ∈ run, x.1.augmentation_enabled = true ∧
      x.1.Vibration_mode = VibrationMode.MAX_VALUE)
    (k : Nat) :
    (runLoop p s0 (run.take k)).is_vibrating_left = false ∨
      (runLoop p s0 (run.take k)).is_vibrating_right = false := by
  have h := runLoop_maxValue_exclusive p (run.take k) s0
    (by rw [hidle.1]; simp)
    (fun x hx => hrun x (List.mem_of_mem_take hx))
  cases hl : (runLoop p s0 (run.take k)).is_vibrating_left
  · exact Or.inl rfl
  · cases hr : (runLoop p s0 (run.take k)).is_vibrating_right
    · exact Or.inr rfl
    · exact absurd ⟨hl, hr⟩ h

/-- Witness of C7: a run of two Max Value passes from the idle state `heldLeft`. -/
theorem max_value_mode_at_most_one_active_witness :
    (heldLeft.is_vibrating_left = false ∧ heldLeft.is_vibrating_right = false) ∧
    ((runLoop esp32 heldLeft
          ([(maxValueOn, skewPass1), (maxValueOn, skewPass2)].take 2)).is_vibrating_left =
        false ∨
      (runLoop esp32 heldLeft
          ([(maxValueOn, skewPass1), (maxValueOn, skewPass2)].take 2)).is_vibrating_right =
        false) :=
  ⟨by decide,
    max_value_mode_at_most_one_active esp32 heldLeft
      [(maxValueOn, skewPass1), (maxValueOn, skewPass2)] (by decide)
      (by
        intro x hx
        simp only [List.mem_cons, List.mem_singleton, List.not_mem_nil, or_false] at hx
        rcases hx with rfl | rfl <;> exact ⟨rfl, rfl⟩)
      2⟩

/-! ## Combined mode pairing (claim C8) -/

/-- C8 (as stated) fails: from the idle state `heldLeft`, two Combined passes with
augmentation enabled and the default pulse duration 12500 µs. The first pass starts both
pulses, the left timer at clock reading 0 and the right timer at 5. In the second pass the
left timeout check reads 12502 (elapsed 12502, the left pulse is stopped) and the right
check reads 12503 (elapsed 12498, the right pulse stays), so after the pass the left
channel is idle and the right channel is active. -/
theorem combined_mode_flags_differ_after_timeout :
    (heldLeft.is_vibrating_left = false ∧ heldLeft.is_vibrating_right = false) ∧
    (combinedOn.augmentation_enabled = true ∧
      combinedOn.Vibration_mode = VibrationMode.COMBINED) ∧
    ((runLoop esp32 heldLeft [(combinedOn, skewPass1)]).is_vibrating_left = true ∧
      (runLoop esp32 heldLeft [(combinedOn, skewPass1)]).is_vibrating_right = true) ∧
    ((runLoop esp32 heldLeft
        [(combinedOn, skewPass1), (combinedOn, skewPass2)]).is_vibrating_left = false ∧
      (runLoop esp32 heldLeft
        [(combinedOn, skewPass1), (combinedOn, skewPass2)]).is_vibrating_right = true) := by
  decide

/-- One Combined pass with the clock reading the same at both `StartPulse` calls and at
both timeout checks keeps the flags equal and, while vibrating, the pulse timers equal. -/
theorem loop_combined_paired (p : Platform) (cfg : Settings) (inp : Inputs) (s : State)
    (haug : cfg.augmentation_enabled = true)
    (hmode : cfg.Vibration_mode = VibrationMode.COMBINED)
    (hstart : inp.micros_start_left = inp.micros_start_right)
    (hcheck : inp.micros_check_left = inp.micros_check_right)
    (hflags : s.is_vibrating_left = s.is_vibrating_right)
    (htimers : s.is_vibrating_left = true → s.pulse_time_us_left = s.pulse_time_us_right) :
    (loop p cfg inp s).is_vibrating_left = (loop p cfg inp s).is_vibrating_right ∧
    ((loop p cfg inp s).is_vibrating_left = true →
      (loop p cfg inp s).pulse_time_us_left = (loop p cfg inp s).pulse_time_us_right) := by
  obtain ⟨_, _, _, _, _, _, l7, l8, l9, l10, _, _⟩ := loop_after_modeLogic p cfg inp s haug
  have hm : modeLogic p cfg inp (sensorUpdate cfg inp s) =
      combinedMode p cfg inp (sensorUpdate cfg inp s) := by
    simp [modeLogic, hmode]
  obtain ⟨f1, f2, _, _, f5, f6, _⟩ := sensorUpdate_frame cfg inp s
  obtain ⟨_, _, e3, e4, _, _⟩ := combinedMode_effect p cfg inp (sensorUpdate cfg inp s)
  have g3 := e3 (by rw [f1, f2]; exact hflags)
  have g4 := e4 (by rw [f1, f5, f6]; exact htimers) hstart
  rw [hm] at l7 l8 l9 l10
  have key : (loop p cfg inp s).is_vibrating_left = true ↔
      (loop p cfg inp s).is_vibrating_right = true := by
    rw [l9, l10]
    constructor
    · rintro ⟨a, b⟩
      refine ⟨by rw [← g3]; exact a, ?_⟩
      rw [← g4 a, ← hcheck]
      exact b
    · rintro ⟨a, b⟩
      have a' : (combinedMode p cfg inp (sensorUpdate cfg inp s)).is_vibrating_left = true := by
        rw [g3]; exact a
      refine ⟨a', ?_⟩
      rw [g4 a', hcheck]
      exact b
  constructor
  · exact Bool.eq_iff_iff.mpr key
  · intro h
    rw [l7, l8]
    exact g4 (l9.mp h).1

/-- Pairing along a run of Combined passes with coherent clock readings. -/
theorem runLoop_combined_paired (p : Platform) (run : List (Settings × Inputs)) :
    ∀ s : State,
      s.is_vibrating_left = s.is_vibrating_right →
      (s.is_vibrating_left = true → s.pulse_time_us_left = s.pulse_time_us_right) →
      (∀ x ∈ run, x.1.augmentation_enabled = true ∧
        x.1.Vibration_mode = VibrationMode.COMBINED ∧
        x.2.micros_start_left = x.2.micros_start_right ∧
        x.2.micros_check_left = x.2.micros_check_right) →
      (runLoop p s run).is_vibrating_left = (runLoop p s run).is_vibrating_right := by
  induction run with
  | nil =>
    intro s h _ _
    exact h
  | cons x rest ih =>
    intro s h ht hrun
    obtain ⟨cfg, inp⟩ := x
    have hx := hrun (cfg, inp) (List.mem_cons_self _ _)
    have hstep := loop_combined_paired p cfg inp s hx.1 hx.2.1 hx.2.2.1 hx.2.2.2 h ht
    exact ih (loop p cfg inp s) hstep.1 hstep.2
      (fun y hy => hrun y (List.mem_cons_of_mem _ hy))

/-- C8 (amended): in Combined mode the mode logic drives both channels together, and the
hard timeout uses each channel's own timer. For every pre-tick state with
`is_vibrating_left == is_vibrating_right`, every settings and inputs of a Combined pass
with augmentation enabled, the flags are equal after the mode logic of the pass. For
every run that starts with both channels idle and executes only Combined passes with
augmentation enabled in which the clock reads the same at both `StartPulse` calls and the
same at both timeout checks of each pass, after every pass (after the first `k` passes,
for every `k`) `is_vibrating_left == is_vibrating_right`. -/
theorem combined_mode_flags_paired (p : Platform) (s0 : State)
    (run : List (Settings × Inputs))
    (hidle : s0.is_vibrating_left = false ∧ s0.is_vibrating_right = false)
    (hrun : ∀ x ∈ run, x.1.augmentation_enabled = true ∧
      x.1.Vibration_mode = VibrationMode.COMBINED) :
    (∀ (cfg : Settings) (inp : Inputs) (s : State),
      cfg.Vibration_mode = VibrationMode.COMBINED →
      s.is_vibrating_left = s.is_vibrating_right →
      (modeLogic p cfg inp (sensorUpdate cfg inp s)).is_vibrating_left =
        (modeLogic p cfg inp (sensorUpdate cfg inp s)).is_vibrating_right) ∧
    ((∀ x ∈ run, x.2.micros_start_left = x.2.micros_start_right ∧
        x.2.micros_check_left = x.2.micros_check_right) →
      ∀ k : Nat,
        (runLoop p s0 (run.take k)).is_vibrating_left =
          (runLoop p s0 (run.take k)).is_vibrating_right) := by
  constructor
  · intro cfg inp s hmode hflags
    have hm : modeLogic p cfg inp (sensorUpdate cfg inp s) =
        combinedMode p cfg inp (sensorUpdate cfg inp s) := by
      simp [modeLogic, hmode]
    obtain ⟨f1, f2, _⟩ := sensorUpdate_frame cfg inp s
    rw [hm]
    exact (combinedMode_effect p cfg inp (sensorUpdate cfg inp s)).2.2.1
      (by rw [f1, f2]; exact hflags)
  · intro hclock k
    apply runLoop_combined_paired p (run.take k) s0
    · rw [hidle.1, hidle.2]
    · intro h
      rw [hidle.1] at h
      exact absurd h (by decide)
    · intro x hx
      have hmem := List.mem_of_mem_take hx
      exact ⟨(hrun x hmem).1, (hrun x hmem).2, (hclock x hmem).1, (hclock x hmem).2⟩

/-- Witness of the amended C8: a run of two Combined passes from the idle state
`heldLeft` with a constant clock reading within each pass. -/
theorem combined_mode_flags_paired_witness :
    (heldLeft.is_vibrating_left = false ∧ heldLeft.is_vibrating_right = false) ∧
    (runLoop esp32 heldLeft
        ([(combinedOn, quietPass), (combinedOn, quietPass)].take 2)).is_vibrating_left =
      (runLoop esp32 heldLeft
        ([(combinedOn, quietPass), (combinedOn, quietPass)].take 2)).is_vibrating_right :=
  ⟨by decide,
    (combined_mode_flags_paired esp32 heldLeft
      [(combinedOn, quietPass), (combinedOn, quietPass)] (by decide)
      (by
        intro x hx
        simp only [List.mem_cons, List.mem_singleton, List.not_mem_nil, or_false] at hx
        rcases hx with rfl | rfl <;> exact ⟨rfl, rfl⟩)).2
      (by
        intro x hx
        simp only [List.mem_cons, List.mem_singleton, List.not_mem_nil, or_false] at hx
        rcases hx with rfl | rfl <;> exact ⟨rfl, rfl⟩)
      2⟩

/-! ## Hard timeout (claim C9) -/

/-- C9 (as stated) fails: Individual mode with augmentation enabled and pulse duration
1000 µs; the left channel is active with its timer started at clock reading 2, so its
elapsed time at the timeout check (clock reading 1002) is exactly 1000. The left bin has
changed and the filtered value is above the threshold, so the mode logic restarts the
pulse at clock reading 1001; the timeout check then reads an elapsed time of 1 and the
channel is still active at the end of the pass. -/
theorem timeout_does_not_stop_retriggered_pulse :
    (individualOn1000.augmentation_enabled = true ∧
      individualOn1000.signal_generator_settings.duration_us = 1000) ∧
    (expiringLeft.is_vibrating_left = true ∧
      expiringLeft.pulse_time_us_left.read passAt1002.micros_check_left = 1000) ∧
    (loop esp32 individualOn1000 passAt1002 expiringLeft).pulses_started_left =
      expiringLeft.pulses_started_left + 1 ∧
    (loop esp32 individualOn1000 passAt1002 expiringLeft).is_vibrating_left = true := by
  decide

/-- C9 (amended): for every mode and every pre-tick state with augmentation enabled, if a
channel is active at the start of a pass, the elapsed time of its pulse read at the
timeout check has reached the configured duration (`elapsed ≥ duration_us`) and the mode
logic of the pass starts no new pulse on that channel, then at the end of the pass the
channel is idle with duty 0. -/
theorem hard_timeout_without_retrigger (p : Platform) (cfg : Settings) (inp : Inputs)
    (s : State) (haug : cfg.augmentation_enabled = true) :
    (s.is_vibrating_left = true →
      s.pulse_time_us_left.read inp.micros_check_left ≥
        cfg.signal_generator_settings.duration_us →
      (loop p cfg inp s).pulses_started_left = s.pulses_started_left →
      (loop p cfg inp s).is_vibrating_left = false ∧ (loop p cfg inp s).duty_left = 0) ∧
    (s.is_vibrating_right = true →
      s.pulse_time_us_right.read inp.micros_check_right ≥
        cfg.signal_generator_settings.duration_us →
      (loop p cfg inp s).pulses_started_right = s.pulses_started_right →
      (loop p cfg inp s).is_vibrating_right = false ∧ (loop p cfg inp s).duty_right = 0) := by
  obtain ⟨l1, l2, _, _, _, _, _, _, l9, l10, l11, l12⟩ :=
    loop_after_modeLogic p cfg inp s haug
  obtain ⟨f1, f2, _, _, f5, f6, _, _, _, _, f11, f12, _, _⟩ := sensorUpdate_frame cfg inp s
  obtain ⟨n1, n2⟩ := modeLogic_no_start p cfg inp (sensorUpdate cfg inp s)
  obtain ⟨w1, w2⟩ := modeLogic_idle_duty p cfg inp (sensorUpdate cfg inp s)
  constructor
  · intro hv he hs
    have ht := (n1 (by rw [← l1, f11]; exact hs)).1
    have hoff : (loop p cfg inp s).is_vibrating_left = false := by
      cases hf : (loop p cfg inp s).is_vibrating_left
      · rfl
      · have := (l9.mp hf).2
        rw [ht, f5] at this
        omega
    refine ⟨hoff, l11 (w1 ?_) hoff⟩
    intro h
    rw [f1, hv] at h
    exact absurd h (by decide)
  · intro hv he hs
    have ht := (n2 (by rw [← l2, f12]; exact hs)).1
    have hoff : (loop p cfg inp s).is_vibrating_right = false := by
      cases hf : (loop p cfg inp s).is_vibrating_right
      · rfl
      · have := (l10.mp hf).2
        rw [ht, f6] at this
        omega
    refine ⟨hoff, l12 (w2 ?_) hoff⟩
    intro h
    rw [f2, hv] at h
    exact absurd h (by decide)

/-- Witness of the amended C9: the left pulse with elapsed time exactly 1000 µs and an
unchanged bin is stopped by the pass. -/
theorem hard_timeout_without_retrigger_witness :
    (individualOn1000.augmentation_enabled = true ∧
      expiringLeftSameBin.is_vibrating_left = true ∧
      expiringLeftSameBin.pulse_time_us_left.read passAt1002.micros_check_left ≥
        individualOn1000.signal_generator_settings.duration_us ∧
      (loop esp32 individualOn1000 passAt1002 expiringLeftSameBin).pulses_started_left =
        expiringLeftSameBin.pulses_started_left) ∧
    (loop esp32 individualOn1000 passAt1002 expiringLeftSameBin).is_vibrating_left = false ∧
    (loop esp32 individualOn1000 passAt1002 expiringLeftSameBin).duty_left = 0 :=
  ⟨⟨by decide, by decide, by decide, by decide⟩,
    (hard_timeout_without_retrigger esp32 individualOn1000 passAt1002 expiringLeftSameBin
      (by decide)).1 (by decide) (by decide) (by decide)⟩

/-! ## Max Value mode below the threshold (claim C10) -/

/-- C10: in Max Value mode with augmentation enabled, for every pre-tick state and every
inputs such that the larger of the two filtered values (after the sensor update of the
pass) is less than or equal to the threshold, both channels are idle after the pass and no
pulse is started, whatever the current and last-triggered bin ids; the duty of each
channel is 0 (for a channel that was already idle before the pass this is the duty 0 it
had, an idle channel having duty 0 in every state the firmware reaches). -/
theorem max_value_mode_below_threshold_stops (p : Platform) (cfg : Settings) (inp : Inputs)
    (s : State) (haug : cfg.augmentation_enabled = true)
    (hmode : cfg.Vibration_mode = VibrationMode.MAX_VALUE)
    (hmax : max (sensorUpdate cfg inp s).filtered_sensor_value_left
        (sensorUpdate cfg inp s).filtered_sensor_value_right ≤
      cfg.threshold_to_start_trigger) :
    ((loop p cfg inp s).is_vibrating_left = false ∧
      ((s.is_vibrating_left = false → s.duty_left = 0) → (loop p cfg inp s).duty_left = 0)) ∧
    ((loop p cfg inp s).is_vibrating_right = false ∧
      ((s.is_vibrating_right = false → s.duty_right = 0) →
        (loop p cfg inp s).duty_right = 0)) ∧
    (loop p cfg inp s).pulses_started_left = s.pulses_started_left ∧
    (loop p cfg inp s).pulses_started_right = s.pulses_started_right := by
  obtain ⟨l1, l2, _, _, _, _, _, _, l9, l10, l11, l12⟩ :=
    loop_after_modeLogic p cfg inp s haug
  have hm : modeLogic p cfg inp (sensorUpdate cfg inp s) =
      maxValueMode p cfg inp (sensorUpdate cfg inp s) := by
    simp [modeLogic, hmode]
  obtain ⟨f1, f2, f3, f4, _, _, _, _, _, _, f11, f12, _, _⟩ := sensorUpdate_frame cfg inp s
  obtain ⟨b1, b2, b3, b4⟩ := maxValueMode_below_threshold p cfg inp (sensorUpdate cfg inp s) hmax
  obtain ⟨w1, w2⟩ := modeLogic_idle_duty p cfg inp (sensorUpdate cfg inp s)
  rw [hm] at l1 l2 l9 l10
  have hoffl : (loop p cfg inp s).is_vibrating_left = false := by
    cases hf : (loop p cfg inp s).is_vibrating_left
    · rfl
    · have := (l9.mp hf).1
      rw [b1] at this
      exact absurd this (by decide)
  have hoffr : (loop p cfg inp s).is_vibrating_right = false := by
    cases hf : (loop p cfg inp s).is_vibrating_right
    · rfl
    · have := (l10.mp hf).1
      rw [b2] at this
      exact absurd this (by decide)
  refine ⟨⟨hoffl, fun hw => l11 (w1 (by rw [f1, f3]; exact hw)) hoffl⟩,
    ⟨hoffr, fun hw => l12 (w2 (by rw [f2, f4]; exact hw)) hoffr⟩, ?_, ?_⟩
  · rw [l1, b3, f11]
  · rw [l2, b4, f12]

/-- Witness of C10: the left channel is vibrating with a changed bin, both filtered
values (40 and 60) are at or below the threshold 100. -/
theorem max_value_mode_below_threshold_stops_witness :
    (maxValueOn.augmentation_enabled = true ∧
      maxValueOn.Vibration_mode = VibrationMode.MAX_VALUE) ∧
    ((loop esp32 maxValueOn quietPass releasedBoth).is_vibrating_left = false ∧
      (loop esp32 maxValueOn quietPass releasedBoth).duty_left = 0) ∧
    ((loop esp32 maxValueOn quietPass releasedBoth).is_vibrating_right = false ∧
      (loop esp32 maxValueOn quietPass releasedBoth).duty_right = 0) ∧
    (loop esp32 maxValueOn quietPass releasedBoth).pulses_started_left =
      releasedBoth.pulses_started_left ∧
    (loop esp32 maxValueOn quietPass releasedBoth).pulses_started_right =
      releasedBoth.pulses_started_right :=
  ⟨⟨by decide, by decide⟩,
    ⟨(max_value_mode_below_threshold_stops esp32 maxValueOn quietPass releasedBoth
        (by decide) (by decide) (by decide)).1.1,
      (max_value_mode_below_threshold_stops esp32 maxValueOn quietPass releasedBoth
        (by decide) (by decide) (by decide)).1.2 (by decide)⟩,
    ⟨(max_value_mode_below_threshold_stops esp32 maxValueOn quietPass releasedBoth
        (by decide) (by decide) (by decide)).2.1.1,
      (max_value_mode_below_threshold_stops esp32 maxValueOn quietPass releasedBoth
        (by decide) (by decide) (by decide)).2.1.2 (by decide)⟩,
    (max_value_mode_below_threshold_stops esp32 maxValueOn quietPass releasedBoth
      (by decide) (by decide) (by decide)).2.2⟩

/-! ## Max Value mode with the right channel larger (claim C11) -/

/-- Effect of Max Value mode when both filtered values exceed the threshold and the right
value is the larger one. -/
theorem maxValueMode_right_larger (p : Platform) (cfg : Settings) (inp : Inputs) (s : State)
    (hl : cfg.threshold_to_start_trigger < s.filtered_sensor_value_left)
    (hr : cfg.threshold_to_start_trigger < s.filtered_sensor_value_right)
    (hlt : s.filtered_sensor_value_left < s.filtered_sensor_value_right) :
    maxValueTarget s = Speaker.RIGHT ∧
    (maxValueBin cfg s ≠ max s.last_bin_id_left s.last_bin_id_right →
      (maxValueMode p cfg inp s).is_vibrating_left = false ∧
      (maxValueMode p cfg inp s).is_vibrating_right = true ∧
      (maxValueMode p cfg inp s).pulses_started_left = s.pulses_started_left ∧
      (maxValueMode p cfg inp s).pulses_started_right = s.pulses_started_right + 1) ∧
    (maxValueBin cfg s = max s.last_bin_id_left s.last_bin_id_right →
      (maxValueMode p cfg inp s).is_vibrating_left = s.is_vibrating_left ∧
      (maxValueMode p cfg inp s).is_vibrating_right = s.is_vibrating_right ∧
      (maxValueMode p cfg inp s).pulse_time_us_left = s.pulse_time_us_left ∧
      (maxValueMode p cfg inp s).pulses_started_left = s.pulses_started_left ∧
      (maxValueMode p cfg inp s).pulses_started_right = s.pulses_started_right) := by
  have key : ∀ a b : ℚ, (a ≤ b) = ¬ (b < a) := fun a b => propext not_lt.symm
  by_cases h1 : s.is_vibrating_left = true <;>
  by_cases h2 : s.is_vibrating_right = true <;>
  by_cases h6 : maxValueBin cfg s = max s.last_bin_id_left s.last_bin_id_right <;>
  simp [-not_lt, key, maxValueMode, maxValueTarget, StartPulse, StopPulse,
    h1, h2, hl, hr, hlt, h6]

/-- C11 (as stated) fails: Max Value mode with augmentation enabled, left 300 and right
900 (both above the threshold 100), the left channel active. The bin of the right value
(7) equals the larger of the two last-triggered bins (7), so the mode logic does nothing
and the left channel is still active after the pass. -/
theorem max_value_loser_stays_active :
    (maxValueOn.augmentation_enabled = true ∧
      maxValueOn.Vibration_mode = VibrationMode.MAX_VALUE) ∧
    (rightOvertakes.filtered_sensor_value_left > maxValueOn.threshold_to_start_trigger ∧
      rightOvertakes.filtered_sensor_value_right > maxValueOn.threshold_to_start_trigger ∧
      rightOvertakes.filtered_sensor_value_right > rightOvertakes.filtered_sensor_value_left ∧
      rightOvertakes.is_vibrating_left = true) ∧
    (loop esp32 maxValueOn quietPass rightOvertakes).is_vibrating_left = true ∧
    (loop esp32 maxValueOn quietPass rightOvertakes).is_vibrating_right = false := by
  decide

/-- C11 (amended): in Max Value mode with augmentation enabled, for every pre-tick state
and inputs such that (after the sensor update of the pass) both filtered values exceed the
threshold and the right value is strictly larger than the left, the right channel is the
selected target. When the bin of the right value over the right range differs from the
larger of the two last-triggered bins, the pass starts a pulse on the right channel and
none on the left, and the left channel is idle with duty 0 after the pass, including when
it was active before. When that bin equals the larger last-triggered bin, the pass starts
no pulse and the mode logic leaves both vibrating flags as they were. -/
theorem max_value_mode_right_larger (p : Platform) (cfg : Settings) (inp : Inputs) (s : State)
    (haug : cfg.augmentation_enabled = true)
    (hmode : cfg.Vibration_mode = VibrationMode.MAX_VALUE)
    (hl : (sensorUpdate cfg inp s).filtered_sensor_value_left > cfg.threshold_to_start_trigger)
    (hr : (sensorUpdate cfg inp s).filtered_sensor_value_right >
      cfg.threshold_to_start_trigger)
    (hlt : (sensorUpdate cfg inp s).filtered_sensor_value_right >
      (sensorUpdate cfg inp s).filtered_sensor_value_left) :
    maxValueTarget (sensorUpdate cfg inp s) = Speaker.RIGHT ∧
    (maxValueBin cfg (sensorUpdate cfg inp s) ≠ max s.last_bin_id_left s.last_bin_id_right →
      (loop p cfg inp s).pulses_started_right = s.pulses_started_right + 1 ∧
      (loop p cfg inp s).pulses_started_left = s.pulses_started_left ∧
      (loop p cfg inp s).is_vibrating_left = false ∧
      ((s.is_vibrating_left = false → s.duty_left = 0) →
        (loop p cfg inp s).duty_left = 0)) ∧
    (maxValueBin cfg (sensorUpdate cfg inp s) = max s.last_bin_id_left s.last_bin_id_right →
      (loop p cfg inp s).pulses_started_right = s.pulses_started_right ∧
      (loop p cfg inp s).pulses_started_left = s.pulses_started_left ∧
      (modeLogic p cfg inp (sensorUpdate cfg inp s)).is_vibrating_left =
        s.is_vibrating_left ∧
      (modeLogic p cfg inp (sensorUpdate cfg inp s)).is_vibrating_right =
        s.is_vibrating_right) := by
  obtain ⟨l1, l2, _, _, _, _, _, _, l9, _, l11, _⟩ := loop_after_modeLogic p cfg inp s haug
  have hm : modeLogic p cfg inp (sensorUpdate cfg inp s) =
      maxValueMode p cfg inp (sensorUpdate cfg inp s) := by
    simp [modeLogic, hmode]
  obtain ⟨f1, f2, f3, _, _, _, f7, f8, _, _, f11, f12, _, _⟩ := sensorUpdate_frame cfg inp s
  obtain ⟨t, a, b⟩ := maxValueMode_right_larger p cfg inp (sensorUpdate cfg inp s) hl hr hlt
  obtain ⟨w1, _⟩ := modeLogic_idle_duty p cfg inp (sensorUpdate cfg inp s)
  rw [f7, f8] at a b
  rw [hm] at l1 l2 l9
  refine ⟨t, ?_, ?_⟩
  · intro hne
    obtain ⟨a1, _, a3, a4⟩ := a hne
    have hoff : (loop p cfg inp s).is_vibrating_left = false := by
      cases hf : (loop p cfg inp s).is_vibrating_left
      · rfl
      · have := (l9.mp hf).1
        rw [a1] at this
        exact absurd this (by decide)
    refine ⟨by rw [l2, a4, f12], by rw [l1, a3, f11], hoff, ?_⟩
    intro hw
    exact l11 (w1 (by rw [f1, f3]; exact hw)) hoff
  · intro heq
    obtain ⟨b1, b2, _, b4, b5⟩ := b heq
    exact ⟨by rw [l2, b5, f12], by rw [l1, b4, f11], by rw [hm, b1, f1], by rw [hm, b2, f2]⟩

/-- Witness of the amended C11: left 300, right 900, the left channel active, the last
trigger at bin 6; the pass starts the right pulse and leaves the left channel idle. -/
theorem max_value_mode_right_larger_witness :
    (maxValueOn.augmentation_enabled = true ∧
      maxValueOn.Vibration_mode = VibrationMode.MAX_VALUE ∧
      rightOvertakesNewBin.is_vibrating_left = true) ∧
    maxValueTarget (sensorUpdate maxValueOn quietPass rightOvertakesNewBin) = Speaker.RIGHT ∧
    (loop esp32 maxValueOn quietPass rightOvertakesNewBin).pulses_started_right =
      rightOvertakesNewBin.pulses_started_right + 1 ∧
    (loop esp32 maxValueOn quietPass rightOvertakesNewBin).is_vibrating_left = false ∧
    (loop esp32 maxValueOn quietPass rightOvertakesNewBin).duty_left = 0 :=
  ⟨⟨by decide, by decide, by decide⟩,
    (max_value_mode_right_larger esp32 maxValueOn quietPass rightOvertakesNewBin (by decide)
      (by decide) (by decide) (by decide) (by decide)).1,
    ((max_value_mode_right_larger esp32 maxValueOn quietPass rightOvertakesNewBin (by decide)
      (by decide) (by decide) (by decide) (by decide)).2.1 (by decide)).1,
    ((max_value_mode_right_larger esp32 maxValueOn quietPass rightOvertakesNewBin (by decide)
      (by decide) (by decide) (by decide) (by decide)).2.1 (by decide)).2.2.1,
    ((max_value_mode_right_larger esp32 maxValueOn quietPass rightOvertakesNewBin (by decide)
      (by decide) (by decide) (by decide) (by decide)).2.1 (by decide)).2.2.2 (by decide)⟩

/-! ## Augmentation disabled (claim C12) -/

/-- Effect of the augmentation-disabled branch, field by field. -/
theorem augmentationDisabled_effect (s : State) :
    (augmentationDisabled s).is_vibrating_left = false ∧
    (augmentationDisabled s).is_vibrating_right = false ∧
    (augmentationDisabled s).was_vibrating_combined = false ∧
    (augmentationDisabled s).pulses_started_left = s.pulses_started_left ∧
    (augmentationDisabled s).pulses_started_right = s.pulses_started_right ∧
    (augmentationDisabled s).duty_left = (if s.is_vibrating_left = true then 0 else s.duty_left) ∧
    (augmentationDisabled s).duty_right =
      (if s.is_vibrating_right = true then 0 else s.duty_right) := by
  cases h1 : s.is_vibrating_left <;>
  cases h2 : s.is_vibrating_right <;>
  simp [augmentationDisabled, StopPulse, h1, h2]

/-- C12: for every mode and every pre-tick state (pulses in flight or not) and every
inputs, a pass of `loop()` executed with augmentation disabled leaves both channels idle,
has written duty 0 to every channel that was active (the duty of a channel that was idle
is untouched), sets `was_vibrating_combined` to false and starts no pulse. -/
theorem augmentation_disabled_stops_everything (p : Platform) (cfg : Settings) (inp : Inputs)
    (s : State) (haug : cfg.augmentation_enabled = false) :
    (loop p cfg inp s).is_vibrating_left = false ∧
    (loop p cfg inp s).is_vibrating_right = false ∧
    (loop p cfg inp s).duty_left = (if s.is_vibrating_left = true then 0 else s.duty_left) ∧
    (loop p cfg inp s).duty_right =
      (if s.is_vibrating_right = true then 0 else s.duty_right) ∧
    (loop p cfg inp s).was_vibrating_combined = false ∧
    (loop p cfg inp s).pulses_started_left = s.pulses_started_left ∧
    (loop p cfg inp s).pulses_started_right = s.pulses_started_right := by
  have e : loop p cfg inp s = augmentationDisabled (sensorUpdate cfg inp s) := by
    simp [loop, haug]
  obtain ⟨f1, f2, f3, f4, _, _, _, _, _, _, f11, f12, _, _⟩ := sensorUpdate_frame cfg inp s
  obtain ⟨a1, a2, a3, a4, a5, a6, a7⟩ := augmentationDisabled_effect (sensorUpdate cfg inp s)
  rw [e, a1, a2, a3, a4, a5, a6, a7, f1, f2, f3, f4, f11, f12]
  exact ⟨rfl, rfl, rfl, rfl, rfl, rfl, rfl⟩

/-- Witness of C12: Individual mode with augmentation disabled, both pulses in flight and
a retrigger condition on the left channel. -/
theorem augmentation_disabled_stops_everything_witness :
    individualOff.augmentation_enabled = false ∧
    (loop esp32 individualOff quietPass bothInFlight).is_vibrating_left = false ∧
    (loop esp32 individualOff quietPass bothInFlight).is_vibrating_right = false ∧
    (loop esp32 individualOff quietPass bothInFlight).duty_left = 0 ∧
    (loop esp32 individualOff quietPass bothInFlight).duty_right = 0 ∧
    (loop esp32 individualOff quietPass bothInFlight).was_vibrating_combined = false ∧
    (loop esp32 individualOff quietPass bothInFlight).pulses_started_left =
      bothInFlight.pulses_started_left ∧
    (loop esp32 individualOff quietPass bothInFlight).pulses_started_right =
      bothInFlight.pulses_started_right :=
  ⟨by decide,
    (augmentation_disabled_stops_everything esp32 individualOff quietPass bothInFlight
      (by decide)).1,
    (augmentation_disabled_stops_everything esp32 individualOff quietPass bothInFlight
      (by decide)).2.1,
    (augmentation_disabled_stops_everything esp32 individualOff quietPass bothInFlight
      (by decide)).2.2.1,
    (augmentation_disabled_stops_everything esp32 individualOff quietPass bothInFlight
      (by decide)).2.2.2.1,
    (augmentation_disabled_stops_everything esp32 individualOff quietPass bothInFlight
      (by decide)).2.2.2.2.1,
    (augmentation_disabled_stops_everything esp32 individualOff quietPass bothInFlight
      (by decide)).2.2.2.2.2⟩

/-! ## Calibration parameters (claims C13 to C15) -/

theorem floatToU32_lt (v : ℚ) : floatToU32 v < 4294967296 := by
  unfold floatToU32
  simp only
  split_ifs <;> omega

theorem get_word_put_word (e : EEPROMClass) (address : Int) (value : Nat)
    (h : value < 4294967296) :
    (e.put_word address value).get_word address = value := by
  unfold EEPROMClass.get_word EEPROMClass.put_word toU32
  simp only [if_true]
  omega

/-- Result of loading one channel's parameters. -/
theorem loadSensorSettings_spec (e : EEPROMClass) (scale_addr min_addr max_addr : Int)
    (default_scale : ℚ) (default_min default_max : Nat) (st : SensorSettings) :
    (loadSensorSettings e scale_addr min_addr max_addr default_scale default_min default_max
        st).scale =
      (match e.get_float scale_addr with
        | StoredFloat.nan => default_scale
        | StoredFloat.num q => if q = 0 then default_scale else q) ∧
    ((loadSensorSettings e scale_addr min_addr max_addr default_scale default_min default_max
          st).min_value,
      (loadSensorSettings e scale_addr min_addr max_addr default_scale default_min default_max
          st).max_value) =
      (if e.get_word min_addr < e.get_word max_addr then
        (e.get_word min_addr, e.get_word max_addr)
      else (default_min, default_max)) := by
  unfold loadSensorSettings
  by_cases h : e.get_word min_addr < e.get_word max_addr
  · have h' : ¬ (e.get_word min_addr ≥ e.get_word max_addr ∨ e.get_word max_addr = 0) := by
      omega
    simp [h, h']
  · have h' : e.get_word min_addr ≥ e.get_word max_addr ∨ e.get_word max_addr = 0 := by
      omega
    simp [h, h']

/-- C13: startup loading never leaves invalid parameters and never alters valid ones: for
every content of the store and for each channel, after `SetupSensors` the channel's scale
is the stored scale when that is neither not-a-number nor zero and 1 otherwise, and the
channel's `(min_value, max_value)` is the stored pair when stored min < stored max and
`(0, 10000)` otherwise. -/
theorem setup_sensors_substitutes_defaults (e : EEPROMClass) (cfg : Settings) :
    ((SetupSensors e cfg).sensor_settings_left.scale =
        (match e.get_float defaults.kEEPROMSensorLeftScaleAddress with
          | StoredFloat.nan => 1
          | StoredFloat.num q => if q = 0 then 1 else q) ∧
      ((SetupSensors e cfg).sensor_settings_left.min_value,
          (SetupSensors e cfg).sensor_settings_left.max_value) =
        (if e.get_word defaults.kEEPROMSensorLeftMinValueAddress <
            e.get_word defaults.kEEPROMSensorLeftMaxValueAddress then
          (e.get_word defaults.kEEPROMSensorLeftMinValueAddress,
            e.get_word defaults.kEEPROMSensorLeftMaxValueAddress)
        else (0, 10000))) ∧
    ((SetupSensors e cfg).sensor_settings_right.scale =
        (match e.get_float defaults.kEEPROMSensorRightScaleAddress with
          | StoredFloat.nan => 1
          | StoredFloat.num q => if q = 0 then 1 else q) ∧
      ((SetupSensors e cfg).sensor_settings_right.min_value,
          (SetupSensors e cfg).sensor_settings_right.max_value) =
        (if e.get_word defaults.kEEPROMSensorRightMinValueAddress <
            e.get_word defaults.kEEPROMSensorRightMaxValueAddress then
          (e.get_word defaults.kEEPROMSensorRightMinValueAddress,
            e.get_word defaults.kEEPROMSensorRightMaxValueAddress)
        else (0, 10000))) :=
  ⟨loadSensorSettings_spec e _ _ _ _ _ _ cfg.sensor_settings_left,
    loadSensorSettings_spec e _ _ _ _ _ _ cfg.sensor_settings_right⟩

/-- C14: evaluation of `CalibrateSensorRange` for the left channel on an erased store.
With the readings 100 and 8000 the channel uses the range `(100, 8000)` while the store
holds `(0, 5000)`; with the readings 500 and 500 the channel uses the defaults
`(0, 10000)` while the store holds `(0, 5000)`: each `EEPROM.put` of a setting is
followed by a second `EEPROM.put` of a constant to the same address. -/
theorem range_calibration_persists_constants :
    ((CalibrateSensorRange 100 8000 {} defaults.kEEPROMSensorLeftMinValueAddress
          defaults.kEEPROMSensorLeftMaxValueAddress erasedStore).1.min_value = 100 ∧
      (CalibrateSensorRange 100 8000 {} defaults.kEEPROMSensorLeftMinValueAddress
          defaults.kEEPROMSensorLeftMaxValueAddress erasedStore).1.max_value = 8000 ∧
      (CalibrateSensorRange 100 8000 {} defaults.kEEPROMSensorLeftMinValueAddress
          defaults.kEEPROMSensorLeftMaxValueAddress erasedStore).2.get_word
        defaults.kEEPROMSensorLeftMinValueAddress = 0 ∧
      (CalibrateSensorRange 100 8000 {} defaults.kEEPROMSensorLeftMinValueAddress
          defaults.kEEPROMSensorLeftMaxValueAddress erasedStore).2.get_word
        defaults.kEEPROMSensorLeftMaxValueAddress = 5000) ∧
    ((CalibrateSensorRange 500 500 {} defaults.kEEPROMSensorLeftMinValueAddress
          defaults.kEEPROMSensorLeftMaxValueAddress erasedStore).1.min_value = 0 ∧
      (CalibrateSensorRange 500 500 {} defaults.kEEPROMSensorLeftMinValueAddress
          defaults.kEEPROMSensorLeftMaxValueAddress erasedStore).1.max_value = 10000 ∧
      (CalibrateSensorRange 500 500 {} defaults.kEEPROMSensorLeftMinValueAddress
          defaults.kEEPROMSensorLeftMaxValueAddress erasedStore).2.get_word
        defaults.kEEPROMSensorLeftMinValueAddress = 0 ∧
      (CalibrateSensorRange 500 500 {} defaults.kEEPROMSensorLeftMinValueAddress
          defaults.kEEPROMSensorLeftMaxValueAddress erasedStore).2.get_word
        defaults.kEEPROMSensorLeftMaxValueAddress = 5000) := by
  decide

/-- Loading one channel's parameters yields a non-degenerate range when the default range
is non-degenerate. -/
theorem loadSensorSettings_lt (e : EEPROMClass) (scale_addr min_addr max_addr : Int)
    (default_scale : ℚ) (default_min default_max : Nat) (st : SensorSettings)
    (hd : default_min < default_max) :
    (loadSensorSettings e scale_addr min_addr max_addr default_scale default_min default_max
        st).min_value <
      (loadSensorSettings e scale_addr min_addr max_addr default_scale default_min default_max
        st).max_value := by
  unfold loadSensorSettings
  by_cases h : e.get_word min_addr ≥ e.get_word max_addr ∨ e.get_word max_addr = 0
  · simp only [h, if_true]
    exact hd
  · simp only [h, if_false]
    omega

/-- C15: the calibration invariant `min_value < max_value`. `SetupSensors` establishes it
for both channels for every content of the store. `CalibrateSensorRange` establishes it
for every pair of readings and every prior settings `prior` (valid or not): with `m1`,
`m2` the readings converted to `uint32_t`, the range in memory afterwards is `(m1, m2)`
when `m1 < m2` and `(0, 10000)` otherwise. `CalibrateMin` preserves it: for every channel
settings with `min_value < max_value` and every reading, with `m` the reading converted
to `uint32_t`, after `CalibrateMin` the channel's `min_value` is `m` if `m < max_value`
and 0 otherwise, `max_value` is unchanged, `min_value < max_value` still holds, and the
minimum held in the store equals the new `min_value`. -/
theorem calibration_keeps_min_below_max (e : EEPROMClass) (cfg : Settings)
    (prior settings : SensorSettings) (units_min units_max : ℚ)
    (eeprom_min_addr eeprom_max_addr : Int)
    (h : settings.min_value < settings.max_value) :
    ((SetupSensors e cfg).sensor_settings_left.min_value <
        (SetupSensors e cfg).sensor_settings_left.max_value ∧
      (SetupSensors e cfg).sensor_settings_right.min_value <
        (SetupSensors e cfg).sensor_settings_right.max_value) ∧
    (((CalibrateSensorRange units_min units_max prior eeprom_min_addr eeprom_max_addr
            e).1.min_value,
        (CalibrateSensorRange units_min units_max prior eeprom_min_addr eeprom_max_addr
            e).1.max_value) =
        (if floatToU32 units_min < floatToU32 units_max then
          (floatToU32 units_min, floatToU32 units_max)
        else (0, 10000)) ∧
      (CalibrateSensorRange units_min units_max prior eeprom_min_addr eeprom_max_addr
          e).1.min_value <
        (CalibrateSensorRange units_min units_max prior eeprom_min_addr eeprom_max_addr
          e).1.max_value) ∧
    ((CalibrateMin units_min settings eeprom_min_addr eeprom_max_addr e).1.min_value =
        (if floatToU32 units_min < settings.max_value then floatToU32 units_min else 0) ∧
      (CalibrateMin units_min settings eeprom_min_addr eeprom_max_addr e).1.max_value =
        settings.max_value ∧
      (CalibrateMin units_min settings eeprom_min_addr eeprom_max_addr e).1.min_value <
        (CalibrateMin units_min settings eeprom_min_addr eeprom_max_addr e).1.max_value ∧
      (CalibrateMin units_min settings eeprom_min_addr eeprom_max_addr e).2.get_word
          eeprom_min_addr =
        (CalibrateMin units_min settings eeprom_min_addr eeprom_max_addr e).1.min_value) := by
  refine ⟨⟨?_, ?_⟩, ?_, ?_⟩
  · exact loadSensorSettings_lt e _ _ _ _ _ _ cfg.sensor_settings_left (by decide)
  · exact loadSensorSettings_lt e _ _ _ _ _ _ cfg.sensor_settings_right (by decide)
  · unfold CalibrateSensorRange
    by_cases hc : floatToU32 units_min ≥ floatToU32 units_max
    · have hn : ¬ floatToU32 units_min < floatToU32 units_max := by omega
      simp [hc, hn, defaults.kSensorLeftMinValue, defaults.kSensorLeftMaxValue]
    · have hn : floatToU32 units_min < floatToU32 units_max := by omega
      simp [hc, hn]
  · have hb := floatToU32_lt units_min
    unfold CalibrateMin
    by_cases hc : floatToU32 units_min ≥ settings.max_value
    · have hn : ¬ floatToU32 units_min < settings.max_value := by omega
      simp only [hc, hn, if_true, if_false]
      refine ⟨trivial, trivial, by omega, ?_⟩
      exact get_word_put_word e eeprom_min_addr 0 (by decide)
    · have hn : floatToU32 units_min < settings.max_value := by omega
      simp only [hc, hn, if_true, if_false]
      refine ⟨trivial, trivial, trivial, ?_⟩
      exact get_word_put_word e eeprom_min_addr (floatToU32 units_min) hb

/-- Witness of C15: the store `mixedStore` (valid left calibration, degenerate right
range); `CalibrateSensorRange` is run on the degenerate prior range `[500, 500]` with the
readings 12000 and 500 (a degenerate result, replaced by the defaults); `CalibrateMin` is
run on the default range `[0, 10000]` with the reading 12000 (above the maximum, so the
minimum falls back to 0). -/
theorem calibration_keeps_min_below_max_witness :
    ((0 : Nat) < 10000) ∧
    ((SetupSensors mixedStore {}).sensor_settings_left.min_value <
        (SetupSensors mixedStore {}).sensor_settings_left.max_value ∧
      (SetupSensors mixedStore {}).sensor_settings_right.min_value <
        (SetupSensors mixedStore {}).sensor_settings_right.max_value) ∧
    (((CalibrateSensorRange 12000 500 { min_value := 500, max_value := 500 } 4 8
            mixedStore).1.min_value,
        (CalibrateSensorRange 12000 500 { min_value := 500, max_value := 500 } 4 8
            mixedStore).1.max_value) =
        (if floatToU32 12000 < floatToU32 500 then (floatToU32 12000, floatToU32 500)
        else (0, 10000)) ∧
      (CalibrateSensorRange 12000 500 { min_value := 500, max_value := 500 } 4 8
          mixedStore).1.min_value <
        (CalibrateSensorRange 12000 500 { min_value := 500, max_value := 500 } 4 8
          mixedStore).1.max_value) ∧
    ((CalibrateMin 12000 {} 4 8 mixedStore).1.min_value =
        (if floatToU32 12000 < 10000 then floatToU32 12000 else 0) ∧
      (CalibrateMin 12000 {} 4 8 mixedStore).1.max_value = 10000 ∧
      (CalibrateMin 12000 {} 4 8 mixedStore).1.min_value <
        (CalibrateMin 12000 {} 4 8 mixedStore).1.max_value ∧
      (CalibrateMin 12000 {} 4 8 mixedStore).2.get_word 4 =
        (CalibrateMin 12000 {} 4 8 mixedStore).1.min_value) :=
  ⟨by decide,
    calibration_keeps_min_below_max mixedStore {} { min_value := 500, max_value := 500 } {}
      12000 500 4 8 (by decide)⟩

/-! ## Modulation phase (claim C16) -/

/-- The phase written by the modulation update while a channel vibrates: the increment is
added and `TWO_PI` is subtracted at most once. -/
theorem sineModulationUpdate_phase (p : Platform) (cfg : Settings) (inp : Inputs) (s : State)
    (h : s.is_vibrating_left = true ∨ s.is_vibrating_right = true) :
    (sineModulationUpdate p cfg inp s).modulation_phase =
      (if s.modulation_phase +
            TWO_PI * cfg.modulation_frequency *
              ((s.modulation_timer.read inp.micros_mod_read : ℚ) / 1000000) ≥ TWO_PI then
        s.modulation_phase +
            TWO_PI * cfg.modulation_frequency *
              ((s.modulation_timer.read inp.micros_mod_read : ℚ) / 1000000) - TWO_PI
      else
        s.modulation_phase +
            TWO_PI * cfg.modulation_frequency *
              ((s.modulation_timer.read inp.micros_mod_read : ℚ) / 1000000)) := by
  cases hb : p.board <;>
  by_cases h1 : s.is_vibrating_left = true <;>
  by_cases h2 : s.is_vibrating_right = true <;>
  simp [sineModulationUpdate, hb, h1, h2] <;>
  simp_all

/-- C16: evaluation of the modulation update after an idle second. From the idle state
`heldLeft` (phase 0, modulation timer started at clock reading 0) a Combined pass at clock
reading 1000000 starts both pulses; with the modulation frequency 80 the phase increment
is `80 * TWO_PI`, a single `TWO_PI` is subtracted, and the phase after the pass is
`79 * TWO_PI`, which is not below `TWO_PI`. -/
theorem modulation_phase_leaves_range :
    heldLeft.modulation_phase = 0 ∧
    combinedOn.modulation_frequency = 80 ∧
    heldLeft.modulation_timer.read passAfterOneSecond.micros_mod_read = 1000000 ∧
    (loop esp32 combinedOn passAfterOneSecond heldLeft).modulation_phase = 79 * TWO_PI ∧
    TWO_PI ≤ (loop esp32 combinedOn passAfterOneSecond heldLeft).modulation_phase := by
  have hread : heldLeft.modulation_timer.read passAfterOneSecond.micros_mod_read = 1000000 := by
    decide
  have hphase : (loop esp32 combinedOn passAfterOneSecond heldLeft).modulation_phase =
      79 * TWO_PI := by
    rw [loop_enabled esp32 combinedOn passAfterOneSecond heldLeft (by decide)]
    rw [sineModulationUpdate_phase _ _ _ _ (Or.inl (by decide))]
    have e1 : (pulseDurationHandling combinedOn passAfterOneSecond
        (modeLogic esp32 combinedOn passAfterOneSecond
          (sensorUpdate combinedOn passAfterOneSecond heldLeft))).modulation_phase = 0 := by
      decide
    have e2 : (pulseDurationHandling combinedOn passAfterOneSecond
        (modeLogic esp32 combinedOn passAfterOneSecond
          (sensorUpdate combinedOn passAfterOneSecond heldLeft))).modulation_timer.read
        passAfterOneSecond.micros_mod_read = 1000000 := by
      decide
    have e3 : combinedOn.modulation_frequency = 80 := by decide
    rw [e1, e2, e3]
    unfold TWO_PI
    norm_num
  refine ⟨by decide, by decide, hread, hphase, ?_⟩
  rw [hphase]
  unfold TWO_PI
  norm_num

/-! ## Pulse start (claim C17) -/

/-- C18: evaluation of two consecutive Max Value passes with the valid ranges
`[0, 10000]` (left) and `[0, 1000]` (right), no sensor reading in either pass. The left
value 900 is the larger one and its bin is 7; the bin of the right value 500 is 40. The
first pass starts the left pulse and records the last-triggered bins 7 and 40; in the
second pass, with the same filtered values and mapped bins, the bin 7 of the winner is
compared with `max(7, 40) = 40` and the left pulse is started again. -/
theorem max_value_mode_retriggers_without_bin_change :
    (maxValueOnTwoRanges.augmentation_enabled = true ∧
      maxValueOnTwoRanges.Vibration_mode = VibrationMode.MAX_VALUE) ∧
    (binOf leftLargerRightFiner.filtered_sensor_value_left
        maxValueOnTwoRanges.sensor_settings_left 80 = 7 ∧
      binOf leftLargerRightFiner.filtered_sensor_value_right
        maxValueOnTwoRanges.sensor_settings_right 80 = 40) ∧
    ((loop esp32 maxValueOnTwoRanges quietPass leftLargerRightFiner).filtered_sensor_value_left
        = 900 ∧
      (loop esp32 maxValueOnTwoRanges quietPass leftLargerRightFiner).filtered_sensor_value_right
        = 500 ∧
      (loop esp32 maxValueOnTwoRanges quietPass leftLargerRightFiner).mapped_bin_id_left = 7 ∧
      (loop esp32 maxValueOnTwoRanges quietPass leftLargerRightFiner).mapped_bin_id_right =
        40) ∧
    (loop esp32 maxValueOnTwoRanges quietPass leftLargerRightFiner).pulses_started_left = 1 ∧
    (loop esp32 maxValueOnTwoRanges quietPass
      (loop esp32 maxValueOnTwoRanges quietPass leftLargerRightFiner)).pulses_started_left =
      2 := by
  decide

/-! ## Filter update (claim C19) -/

theorem constrain_rat_bounds (r lo hi : ℚ) (h : lo ≤ hi) :
    lo ≤ constrain r lo hi ∧ constrain r lo hi ≤ hi := by
  unfold constrain
  split_ifs with h1 h2
  · exact ⟨le_refl _, h⟩
  · exact ⟨h, le_refl _⟩
  · exact ⟨not_lt.mp h1, not_lt.mp h2⟩

/-- The filter update is a convex combination of the previous filtered value and the
constrained reading. -/
theorem filterOf_between (f r : ℚ) (st : SensorSettings)
    (hw0 : 0 < st.filter_weight) (hw1 : st.filter_weight ≤ 1) :
    min f (constrain r (st.min_value : ℚ) (st.max_value : ℚ)) ≤ filterOf f st r ∧
    filterOf f st r ≤ max f (constrain r (st.min_value : ℚ) (st.max_value : ℚ)) := by
  unfold filterOf
  simp only
  generalize constrain r (st.min_value : ℚ) (st.max_value : ℚ) = c
  rcases le_total f c with h | h
  · rw [min_eq_left h, max_eq_right h]
    constructor <;> nlinarith
  · rw [min_eq_right h, max_eq_left h]
    constructor <;> nlinarith

/-- C19: the sensor update keeps the filtered value inside the calibrated range once it
is there (over exact rational arithmetic): for every filter weight `w` with `0 < w ≤ 1`,
every range with `min_value ≤ max_value`, every raw reading `r` and every previous
filtered value `f`, the new filtered value `(1-w)*f + w*clamp(r, min_value, max_value)`
lies between `f` and `clamp(r, min_value, max_value)` inclusive, and if `f` is in
`[min_value, max_value]` so is the new filtered value; this is the value the sensor update
of `loop()` stores for a channel whose sensor is ready. -/
theorem filtered_value_stays_in_range (cfg : Settings) (inp : Inputs) (s : State) (f r : ℚ)
    (st : SensorSettings)
    (hw0 : 0 < st.filter_weight) (hw1 : st.filter_weight ≤ 1)
    (hmm : st.min_value ≤ st.max_value) :
    (filterOf f st r =
        (1 - st.filter_weight) * f +
          st.filter_weight * constrain r (st.min_value : ℚ) (st.max_value : ℚ)) ∧
    (min f (constrain r (st.min_value : ℚ) (st.max_value : ℚ)) ≤ filterOf f st r ∧
      filterOf f st r ≤ max f (constrain r (st.min_value : ℚ) (st.max_value : ℚ))) ∧
    ((st.min_value : ℚ) ≤ f → f ≤ (st.max_value : ℚ) →
      (st.min_value : ℚ) ≤ filterOf f st r ∧ filterOf f st r ≤ (st.max_value : ℚ)) ∧
    (cfg.sensor_settings_left = st → inp.ready_left = true →
      (sensorUpdate cfg inp s).filtered_sensor_value_left =
        filterOf s.filtered_sensor_value_left st inp.units_left) ∧
    (cfg.sensor_settings_right = st → inp.ready_right = true →
      (sensorUpdate cfg inp s).filtered_sensor_value_right =
        filterOf s.filtered_sensor_value_right st inp.units_right) := by
  have hb := filterOf_between f r st hw0 hw1
  have hc := constrain_rat_bounds r (st.min_value : ℚ) (st.max_value : ℚ)
    (by exact_mod_cast hmm)
  refine ⟨rfl, hb, ?_, ?_, ?_⟩
  · intro h1 h2
    exact ⟨le_trans (le_min h1 hc.1) hb.1, le_trans hb.2 (max_le h2 hc.2)⟩
  · intro hst hr
    rw [sensorUpdate_filtered_left, if_pos hr, hst]
  · intro hst hr
    rw [sensorUpdate_filtered_right, if_pos hr, hst]

/-- Witness of C19 at the default settings (weight 0.9, range `[0, 10000]`), previous
filtered value 200 and a raw reading 12000 above the range. -/
theorem filtered_value_stays_in_range_witness :
    ((0 : ℚ) < 9 / 10 ∧ (9 / 10 : ℚ) ≤ 1 ∧ (0 : Nat) ≤ 10000) ∧
    (((0 : Nat) : ℚ) ≤ filterOf 200 {} 12000 ∧
      filterOf 200 {} 12000 ≤ ((10000 : Nat) : ℚ)) ∧
    (sensorUpdate {} { ready_left := true, units_left := 12000 }
        { filtered_sensor_value_left := 200 }).filtered_sensor_value_left =
      filterOf 200 {} 12000 :=
  ⟨⟨by norm_num, by norm_num, by decide⟩,
    (filtered_value_stays_in_range {} { ready_left := true, units_left := 12000 }
      { filtered_sensor_value_left := 200 } 200 12000 {}
      (by norm_num) (by norm_num) (by decide)).2.2.1 (by norm_num) (by norm_num),
    (filtered_value_stays_in_range {} { ready_left := true, units_left := 12000 }
      { filtered_sensor_value_left := 200 } 200 12000 {}
      (by norm_num) (by norm_num) (by decide)).2.2.2.1 rfl rfl⟩


end BiHaptics
